import Mathlib

/-!
Shallow embedding of the iron technology modules of GreenHEART
(`greenheart/simulation/technologies/iron/iron_win.py` and
`greenheart/simulation/technologies/iron/iron_ore.py`).

Conventions of the embedding:

* Python floats are idealised as exact numbers: the configuration /
  capacity-sizing / orchestration layers use `ℚ`, and the cost model uses `ℝ`
  (its capital-cost power laws need real exponents, `Real.rpow`).
* Python dicts that are mutated in place (`config.performance_model`,
  `config.cost_model`, and the nested dicts of the greenheart configuration)
  live in an explicit store `Store`; each stateful function takes the store and
  returns the possibly-updated store alongside its result.
* A raised Python exception is an `Except.error` carrying an `Err` tag.
* The module-level registry `model_locs` (loaded from `model_locations.yaml`,
  a data file that is not part of the sources) is passed explicitly as a
  `ModelLocs` argument.
-/

deriving instance DecidableEq for Except

namespace GreenHeart

/-- Python truthiness of an `Optional[float]` value: `None` and `0.0` are
falsy, every other float is truthy.  This is the test performed by
`if config.hydrogen_amount_kgpy:` and by `if a and b:` in the sources. -/
def truthy : Option ℚ → Bool
  | none => false
  | some x => x != 0

/-- Exceptions raised by the iron modules.

* `requiredInput`: `ValueError` from `__attrs_post_init__` when both quantity
  fields are `None`.
* `bothInputs`: `ValueError` from `__attrs_post_init__` when both quantity
  fields are truthy.
* `unboundLocal`: Python `UnboundLocalError` when the placeholder sizing
  branch reaches its `return` with the output locals never assigned.
* `keyError`: a missing dict key (registry entry, natural-gas price year).
* `typeError`: subscripting / unpacking a value of the wrong shape.
* `externalModel`: delegation to an externally named model; the external
  models are unimplemented placeholders in the reference system.
* `lcohMismatch`: `ValueError` from the full-model orchestrators when the
  cost-stage LCOH differs from the finance-stage LCOH. -/
inductive Err
  | requiredInput
  | bothInputs
  | unboundLocal
  | keyError
  | typeError
  | externalModel
  | lcohMismatch
deriving DecidableEq

/-- A `{model, inputs, coeffs}` file-path triple of the model registry. -/
structure ModelPaths where
  model : String
  inputs : String
  coeffs : String
deriving DecidableEq

/-- The Python dict held in `config.performance_model` / `config.cost_model`:
a model name plus three file-path entries (blank when unresolved). -/
structure ModelDict where
  name : String
  model_fp : String
  inputs_fp : String
  coeffs_fp : String
deriving DecidableEq

/-- Modelled from the spec: the model-locations registry
(`model_locations.yaml` is not among the sources).  Per §6 of the spec it is
"a lookup table keyed by model name, yielding file paths for
`{model, inputs, coeffs}` triples, consulted only when a config omits explicit
paths", with separate sections for performance and cost models. -/
structure ModelLocs where
  performance : String → Option ModelPaths
  cost : String → Option ModelPaths

/-- A heap of mutable Python dicts.  Addresses `0, …, next - 1` are the
allocated cells; `alloc` hands out the next fresh address. -/
structure Store (α : Type) where
  next : ℕ
  mem : ℕ → Option α

/-- In-place mutation of the dict at address `a`. -/
def Store.write {α : Type} (σ : Store α) (a : ℕ) (x : α) : Store α :=
  { σ with mem := fun b => if b = a then some x else σ.mem b }

/-- Allocation of a fresh dict (used to model `copy.deepcopy`). -/
def Store.alloc {α : Type} (σ : Store α) (x : α) : Store α × ℕ :=
  ({ next := σ.next + 1,
     mem := fun b => if b = σ.next then some x else σ.mem b }, σ.next)

/-- The `greenheart_config['iron']` sub-configuration: it holds references to
its five nested dicts (`costs`, `capacity`, `finances`, `performance_model`,
`cost_model`). -/
structure IronConfigRefs where
  costs : ℕ
  capacity : ℕ
  finances : ℕ
  performance_model : ℕ
  cost_model : ℕ
deriving DecidableEq

/-- The top-level greenheart configuration dict, restricted to the `iron` key
read by the orchestrators. -/
structure GreenheartConfig where
  iron : IronConfigRefs
deriving DecidableEq

/-- `Feedstocks` (iron_win.py); the identically-declared class of iron_ore.py
is `IronOre.Feedstocks` below.  `natural_gas_prices` is a year-keyed mapping
(`Dict[str, float]`), modelled as an association list. -/
structure Feedstocks where
  natural_gas_prices : List (String × ℚ)
  excess_oxygen : ℚ := 395
  lime_unitcost : ℚ := 122.1
  carbon_unitcost : ℚ := 236.97
  electricity_cost : ℚ := 48.92
  iron_ore_pellet_unitcost : ℚ := 207.35
  oxygen_market_price : ℚ := 0.03
  raw_water_unitcost : ℚ := 0.59289
  iron_ore_consumption : ℚ := 1.62927
  raw_water_consumption : ℚ := 0.80367
  lime_consumption : ℚ := 0.01812
  carbon_consumption : ℚ := 0.0538
  hydrogen_consumption : ℚ := 0.06596
  natural_gas_consumption : ℚ := 0.71657
  electricity_consumption : ℚ := 0.5502
  slag_disposal_unitcost : ℚ := 37.63
  slag_production : ℚ := 0.17433
  maintenance_materials_unitcost : ℚ := 7.72
deriving DecidableEq

/-- The `feedstocks` entry of a `costs` / `finances` dict: initially the raw
parameter mapping from the YAML config, overwritten by the orchestrator with
the constructed `Feedstocks` instance (`iron_win_costs["feedstocks"] =
feedstocks`).  The parameter mapping carries the same fields as the instance,
so both constructors carry a `Feedstocks`; the tag records which of the two
shapes the dict currently holds. -/
inductive FeedstockEntry
  | raw (f : Feedstocks)
  | obj (f : Feedstocks)
deriving DecidableEq

/-- The `iron → costs` dict of the greenheart configuration: the keyword
arguments splatted into `IronWinCostModelConfig` by the orchestrator
(`plant_capacity_mtpy` is supplied separately from the capacity stage, and
the optional emission fields keep their class defaults). -/
structure IronWinCostsDict where
  operational_year : ℕ
  lcoh : ℚ
  capex_misc : ℚ
  o2_heat_integration : Bool
  feedstocks : GreenHeart.FeedstockEntry
deriving DecidableEq

/-- The `iron → capacity` dict: the keyword arguments splatted into
`IronWinCapacityModelConfig` by the orchestrator. -/
structure IronWinCapacityDict where
  input_capacity_factor_estimate : ℚ
  hydrogen_amount_kgpy : Option ℚ := none
  desired_iron_win_mtpy : Option ℚ := none
deriving DecidableEq

/-- The `iron → finances` dict: the keyword arguments splatted into
`IronWinFinanceModelConfig`, restricted to the required fields; the
orchestrator adds the `feedstocks` entry in place before splatting. -/
structure IronWinFinancesDict where
  plant_life : ℕ
  lcoh : ℚ
  grid_prices : List (String × ℚ)
  feedstocks : Option GreenHeart.FeedstockEntry := none
deriving DecidableEq

/-- The shapes of mutable dict that occur in an iron-electrowinning run. -/
inductive WinObj
  | costsD (d : IronWinCostsDict)
  | capacityD (d : IronWinCapacityDict)
  | financesD (d : IronWinFinancesDict)
  | modelD (d : GreenHeart.ModelDict)
deriving DecidableEq

/-- `IronWinCapacityModelConfig` (attrs class).  `performance_model` is a
Python dict, held by reference into the store; it defaults to `None`. -/
structure IronWinCapacityModelConfig where
  input_capacity_factor_estimate : ℚ
  feedstocks : GreenHeart.Feedstocks
  hydrogen_amount_kgpy : Option ℚ := none
  desired_iron_win_mtpy : Option ℚ := none
  performance_model : Option ℕ := none
deriving DecidableEq

/-- `IronWinCapacityModelConfig.__attrs_post_init__`: raises when both
quantity fields are `None`, then raises when both are truthy (`if a and b:`);
otherwise the object is constructed. -/
def ironWinCapacityValidate (hydrogen_amount_kgpy desired_iron_win_mtpy : Option ℚ) :
    Except GreenHeart.Err Unit :=
  if hydrogen_amount_kgpy = none ∧ desired_iron_win_mtpy = none then
    .error .requiredInput
  else if GreenHeart.truthy hydrogen_amount_kgpy ∧ GreenHeart.truthy desired_iron_win_mtpy then
    .error .bothInputs
  else
    .ok ()

/-- `IronWinCapacityModelOutputs`. -/
structure IronWinCapacityModelOutputs where
  iron_win_plant_capacity_mtpy : ℚ
  hydrogen_amount_kgpy : ℚ
deriving DecidableEq

/-- `run_size_iron_win_plant_capacity`.

The placeholder branch consists of two truthiness-guarded assignment blocks
followed by an unconditional `return`; when neither block runs the output
locals are unbound (`Err.unboundLocal`), and when both run the second block
overwrites both locals.  The external branch patches blank file paths of the
`performance_model` dict in place from the registry (raising `KeyError` when
the registry lacks the model — in that case the first blank field fails before
anything was written) and then delegates to the external model, which is an
unimplemented placeholder ("MODEL NOT ACTUALLY IMPLEMENTED"), modelled as
`Err.externalModel` raised after the patching. -/
def run_size_iron_win_plant_capacity (locs : GreenHeart.ModelLocs)
    (σ : GreenHeart.Store WinObj) (config : IronWinCapacityModelConfig) :
    GreenHeart.Store WinObj × Except GreenHeart.Err IronWinCapacityModelOutputs :=
  match config.performance_model with
  | none => (σ, .error .typeError)
  | some pmAddr =>
    match σ.mem pmAddr with
    | none => (σ, .error .keyError)
    | some (.costsD _) | some (.capacityD _) | some (.financesD _) => (σ, .error .typeError)
    | some (.modelD pm) =>
      if pm.name = "placeholder" then
        let r1 : Option IronWinCapacityModelOutputs :=
          if GreenHeart.truthy config.hydrogen_amount_kgpy then
            let h2 := config.hydrogen_amount_kgpy.getD 0
            some { iron_win_plant_capacity_mtpy :=
                     h2 / 1000 / config.feedstocks.hydrogen_consumption
                       * config.input_capacity_factor_estimate
                   hydrogen_amount_kgpy := h2 }
          else none
        let r2 : Option IronWinCapacityModelOutputs :=
          if GreenHeart.truthy config.desired_iron_win_mtpy then
            let d := config.desired_iron_win_mtpy.getD 0
            some { iron_win_plant_capacity_mtpy :=
                     d / config.input_capacity_factor_estimate
                   hydrogen_amount_kgpy :=
                     d * 1000 * config.feedstocks.hydrogen_consumption
                       / config.input_capacity_factor_estimate }
          else r1
        match r2 with
        | some out => (σ, .ok out)
        | none => (σ, .error .unboundLocal)
      else
        if pm.model_fp = "" ∨ pm.inputs_fp = "" ∨ pm.coeffs_fp = "" then
          match locs.performance pm.name with
          | none => (σ, .error .keyError)
          | some fp =>
            let pm1 : GreenHeart.ModelDict :=
              { pm with
                model_fp := if pm.model_fp = "" then fp.model else pm.model_fp
                inputs_fp := if pm.inputs_fp = "" then fp.inputs else pm.inputs_fp
                coeffs_fp := if pm.coeffs_fp = "" then fp.coeffs else pm.coeffs_fp }
            (σ.write pmAddr (.modelD pm1), .error .externalModel)
        else
          (σ, .error .externalModel)

/-- `run_iron_win_model`: annual production from capacity and capacity
factor. -/
def run_iron_win_model (plant_capacity_mtpy plant_capacity_factor : ℚ) : ℚ :=
  plant_capacity_mtpy * plant_capacity_factor

/-- `IronWinCostModelConfig` (attrs class).  `cost_model` is a Python dict
held by reference into the store; it defaults to `None`. -/
structure IronWinCostModelConfig where
  operational_year : ℕ
  plant_capacity_mtpy : ℚ
  lcoh : ℚ
  capex_misc : ℚ
  feedstocks : Feedstocks
  o2_heat_integration : Bool := true
  co2_fuel_emissions : ℚ := 0.03929
  co2_carbon_emissions : ℚ := 0.17466
  surface_water_discharge : ℚ := 0.42113
  cost_model : Option ℕ := none
deriving DecidableEq

/-- `IronWinCosts`: the minimum cost fields required by
`run_iron_win_finance_model`. -/
structure IronWinCosts where
  capex_eaf_casting : ℝ
  capex_shaft_furnace : ℝ
  capex_oxygen_supply : ℝ
  capex_h2_preheating : ℝ
  capex_cooling_tower : ℝ
  capex_piping : ℝ
  capex_elec_instr : ℝ
  capex_buildings_storage_water : ℝ
  capex_misc : ℝ
  labor_cost_annual_operation : ℝ
  labor_cost_maintenance : ℝ
  labor_cost_admin_support : ℝ
  property_tax_insurance : ℝ
  land_cost : ℝ
  installation_cost : ℝ

/-- `IronWinCostModelOutputs extends IronWinCosts`. -/
structure IronWinCostModelOutputs extends IronWinCosts where
  total_plant_cost : ℝ
  total_fixed_operating_cost : ℝ
  labor_cost_fivemonth : ℝ
  maintenance_materials_onemonth : ℝ
  non_fuel_consumables_onemonth : ℝ
  waste_disposal_onemonth : ℝ
  monthly_energy_cost : ℝ
  spare_parts_cost : ℝ
  misc_owners_costs : ℝ

/-- The placeholder-branch cost computation of `run_iron_win_cost_model`: the body
of the `if config.cost_model['name'] == 'placeholder'` arm, as a function of
the config and the natural-gas price looked up for the operational year. -/
noncomputable def ironWinPlaceholderCosts (config : IronWinCostModelConfig)
    (natural_gas_price : ℚ) : IronWinCostModelOutputs :=
  let feedstocks := config.feedstocks
  let model_year_CEPCI : ℝ := 596.2
  let equation_year_CEPCI : ℝ := 708.8
  let plant_capacity_mtpy : ℝ := (config.plant_capacity_mtpy : ℝ)
  let capex_eaf_casting :=
    model_year_CEPCI / equation_year_CEPCI
      * 352191.5237 * plant_capacity_mtpy ^ (0.456 : ℝ)
  let capex_shaft_furnace :=
    model_year_CEPCI / equation_year_CEPCI
      * 489.68061 * plant_capacity_mtpy ^ (0.88741 : ℝ)
  let capex_oxygen_supply :=
    model_year_CEPCI / equation_year_CEPCI
      * 1715.21508 * plant_capacity_mtpy ^ (0.64574 : ℝ)
  let capex_h2_preheating :=
    if config.o2_heat_integration then
      model_year_CEPCI / equation_year_CEPCI
        * (1 - 0.4) * (45.69123 * plant_capacity_mtpy ^ (0.86564 : ℝ))
    else
      model_year_CEPCI / equation_year_CEPCI
        * 45.69123 * plant_capacity_mtpy ^ (0.86564 : ℝ)
  let capex_cooling_tower :=
    if config.o2_heat_integration then
      model_year_CEPCI / equation_year_CEPCI
        * (1 - 0.3) * (2513.08314 * plant_capacity_mtpy ^ (0.63325 : ℝ))
    else
      model_year_CEPCI / equation_year_CEPCI
        * 2513.08314 * plant_capacity_mtpy ^ (0.63325 : ℝ)
  let capex_piping :=
    model_year_CEPCI / equation_year_CEPCI
      * 11815.72718 * plant_capacity_mtpy ^ (0.59983 : ℝ)
  let capex_elec_instr :=
    model_year_CEPCI / equation_year_CEPCI
      * 7877.15146 * plant_capacity_mtpy ^ (0.59983 : ℝ)
  let capex_buildings_storage_water :=
    model_year_CEPCI / equation_year_CEPCI
      * 1097.81876 * plant_capacity_mtpy ^ (0.8 : ℝ)
  let capex_misc : ℝ := (config.capex_misc : ℝ)
  let total_plant_cost :=
    capex_eaf_casting + capex_shaft_furnace + capex_oxygen_supply
      + capex_h2_preheating + capex_cooling_tower + capex_piping
      + capex_elec_instr + capex_buildings_storage_water + capex_misc
  let labor_cost_annual_operation :=
    69375996.9 * (plant_capacity_mtpy / 365 * 1000) ^ (0.25242 : ℝ)
      / ((1162077 / 365 * 1000 : ℝ) ^ (0.25242 : ℝ))
  let labor_cost_maintenance := 0.00863 * total_plant_cost
  let labor_cost_admin_support :=
    0.25 * (labor_cost_annual_operation + labor_cost_maintenance)
  let property_tax_insurance := 0.02 * total_plant_cost
  let total_fixed_operating_cost :=
    labor_cost_annual_operation + labor_cost_maintenance
      + labor_cost_admin_support + property_tax_insurance
  let labor_cost_fivemonth :=
    5 / 12 * (labor_cost_annual_operation + labor_cost_maintenance
      + labor_cost_admin_support)
  let maintenance_materials_onemonth :=
    (feedstocks.maintenance_materials_unitcost : ℝ) * plant_capacity_mtpy / 12
  let non_fuel_consumables_onemonth :=
    plant_capacity_mtpy
      * ((feedstocks.raw_water_consumption : ℝ) * (feedstocks.raw_water_unitcost : ℝ)
        + (feedstocks.lime_consumption : ℝ) * (feedstocks.lime_unitcost : ℝ)
        + (feedstocks.carbon_consumption : ℝ) * (feedstocks.carbon_unitcost : ℝ)
        + (feedstocks.iron_ore_consumption : ℝ) * (feedstocks.iron_ore_pellet_unitcost : ℝ))
      / 12
  let waste_disposal_onemonth :=
    plant_capacity_mtpy * (feedstocks.slag_disposal_unitcost : ℝ)
      * (feedstocks.slag_production : ℝ) / 12
  let monthly_energy_cost :=
    plant_capacity_mtpy
      * ((feedstocks.hydrogen_consumption : ℝ) * (config.lcoh : ℝ) * 1000
        + (feedstocks.natural_gas_consumption : ℝ) * (natural_gas_price : ℝ)
        + (feedstocks.electricity_consumption : ℝ) * (feedstocks.electricity_cost : ℝ))
      / 12
  let two_percent_tpc := 0.02 * total_plant_cost
  let fuel_consumables_60day_supply_cost :=
    plant_capacity_mtpy
      * ((feedstocks.raw_water_consumption : ℝ) * (feedstocks.raw_water_unitcost : ℝ)
        + (feedstocks.lime_consumption : ℝ) * (feedstocks.lime_unitcost : ℝ)
        + (feedstocks.carbon_consumption : ℝ) * (feedstocks.carbon_unitcost : ℝ)
        + (feedstocks.iron_ore_consumption : ℝ) * (feedstocks.iron_ore_pellet_unitcost : ℝ))
      / 365 * 60
  let spare_parts_cost := 0.005 * total_plant_cost
  let land_cost := 0.775 * plant_capacity_mtpy
  let misc_owners_costs := 0.15 * total_plant_cost
  let installation_cost :=
    labor_cost_fivemonth + two_percent_tpc
      + fuel_consumables_60day_supply_cost + spare_parts_cost + misc_owners_costs
  { capex_eaf_casting := capex_eaf_casting
    capex_shaft_furnace := capex_shaft_furnace
    capex_oxygen_supply := capex_oxygen_supply
    capex_h2_preheating := capex_h2_preheating
    capex_cooling_tower := capex_cooling_tower
    capex_piping := capex_piping
    capex_elec_instr := capex_elec_instr
    capex_buildings_storage_water := capex_buildings_storage_water
    capex_misc := capex_misc
    total_plant_cost := total_plant_cost
    labor_cost_annual_operation := labor_cost_annual_operation
    labor_cost_maintenance := labor_cost_maintenance
    labor_cost_admin_support := labor_cost_admin_support
    property_tax_insurance := property_tax_insurance
    total_fixed_operating_cost := total_fixed_operating_cost
    labor_cost_fivemonth := labor_cost_fivemonth
    maintenance_materials_onemonth := maintenance_materials_onemonth
    non_fuel_consumables_onemonth := non_fuel_consumables_onemonth
    waste_disposal_onemonth := waste_disposal_onemonth
    monthly_energy_cost := monthly_energy_cost
    spare_parts_cost := spare_parts_cost
    land_cost := land_cost
    misc_owners_costs := misc_owners_costs
    installation_cost := installation_cost }

/-- `run_iron_win_cost_model`, placeholder branch: power-law capital line
items indexed by the CEPCI ratio, fixed operating costs, and owner's
(installation) costs, exactly as in the source.  The `natural_gas_prices`
year lookup raises `KeyError` when the operational year is missing.  The
non-placeholder branch patches blank file paths of the `cost_model` dict in
place from the registry and delegates to the external model (an unimplemented
placeholder, modelled as `Err.externalModel`). -/
noncomputable def run_iron_win_cost_model (locs : ModelLocs) (σ : Store WinObj)
    (config : IronWinCostModelConfig) :
    Store WinObj × Except Err IronWinCostModelOutputs :=
  match config.cost_model with
  | none => (σ, .error .typeError)
  | some cmAddr =>
    match σ.mem cmAddr with
    | none => (σ, .error .keyError)
    | some (.costsD _) | some (.capacityD _) | some (.financesD _) => (σ, .error .typeError)
    | some (.modelD cm) =>
      if cm.name = "placeholder" then
        match config.feedstocks.natural_gas_prices.lookup (toString config.operational_year) with
        | none => (σ, .error .keyError)
        | some natural_gas_price =>
          (σ, .ok (ironWinPlaceholderCosts config natural_gas_price))
      else
        if cm.model_fp = "" ∨ cm.inputs_fp = "" ∨ cm.coeffs_fp = "" then
          match locs.cost cm.name with
          | none => (σ, .error .keyError)
          | some fp =>
            let cm1 : ModelDict :=
              { cm with
                model_fp := if cm.model_fp = "" then fp.model else cm.model_fp
                inputs_fp := if cm.inputs_fp = "" then fp.inputs else cm.inputs_fp
                coeffs_fp := if cm.coeffs_fp = "" then fp.coeffs else cm.coeffs_fp }
            (σ.write cmAddr (.modelD cm1), .error .externalModel)
        else
          (σ, .error .externalModel)

/-- `IronWinFinanceModelConfig` (attrs class), restricted to the fields the
claims observe.  The source declares `costs` with the union type
`Union[IronWinCosts, IronWinCostModelOutputs]` and the finance stage only
reads the base `IronWinCosts` fields, so the field carries the minimal
contract `IronWinCosts`. -/
structure IronWinFinanceModelConfig where
  plant_life : ℕ
  plant_capacity_mtpy : ℚ
  plant_capacity_factor : ℚ
  iron_win_production_mtpy : ℚ
  lcoh : ℚ
  grid_prices : List (String × ℚ)
  feedstocks : Feedstocks
  costs : IronWinCosts
  o2_heat_integration : Bool := true
  financial_assumptions : List (String × ℚ) := []
  install_years : ℕ := 3
  gen_inflation : ℚ := 0
  save_plots : Bool := false
  show_plots : Bool := false
  output_dir : String := "./output/"
  design_scenario_id : ℕ := 0

/-- `IronWinFinanceModelOutputs`.  Modelled from the spec: the bodies of the
solution and summary mappings and the price-breakdown table are produced
verbatim by the external ProFAST breakeven solver (out of scope, spec §6);
we record the one guaranteed piece of the contract, the breakeven price that
the solution mapping must expose under its "price" key. -/
structure IronWinFinanceModelOutputs where
  sol_price : ℚ

/-- `run_iron_win_finance_model`.  Modelled from the spec: the body assembles
the commodity/capital/fixed-cost/feedstock/co-product inputs from its config
and delegates the breakeven solve to the external ProFAST engine (spec §4.3
treats that solve as a black box, and ProFAST is not among the sources); the
engine is abstracted as the explicit `solver` argument.  Its optional
plot-writing side effects are peripheral I/O outside the numerical contract
and are not modelled. -/
def run_iron_win_finance_model
    (solver : IronWinFinanceModelConfig → IronWinFinanceModelOutputs)
    (config : IronWinFinanceModelConfig) : IronWinFinanceModelOutputs :=
  solver config

/-- `run_iron_win_full_model`: deep-copies `greenheart_config['iron']`
(modelled as allocation of fresh store cells for the five nested dicts),
checks the cost-stage LCOH against the finance-stage LCOH, then sequences the
capacity, cost, and finance stages, patching the copied dicts exactly where
the source mutates them (`iron_win_costs["feedstocks"] = feedstocks`,
`iron_win_finance["feedstocks"] = feedstocks`, and the path patching done
inside the capacity/cost stages on the copied `performance_model` /
`cost_model` dicts). -/
noncomputable def run_iron_win_full_model (locs : ModelLocs)
    (solver : IronWinFinanceModelConfig → IronWinFinanceModelOutputs)
    (σ : Store WinObj) (greenheart_config : GreenheartConfig) :
    Store WinObj ×
      Except Err
        (IronWinCapacityModelOutputs × IronWinCostModelOutputs × IronWinFinanceModelOutputs) :=
  match σ.mem greenheart_config.iron.costs, σ.mem greenheart_config.iron.capacity,
      σ.mem greenheart_config.iron.finances, σ.mem greenheart_config.iron.performance_model,
      σ.mem greenheart_config.iron.cost_model with
  | some (.costsD costsD), some (.capacityD capacityD), some (.financesD financesD),
      some (.modelD pmD), some (.modelD cmD) =>
    let p1 := σ.alloc (.costsD costsD)
    let p2 := p1.1.alloc (.capacityD capacityD)
    let p3 := p2.1.alloc (.financesD financesD)
    let p4 := p3.1.alloc (.modelD pmD)
    let p5 := p4.1.alloc (.modelD cmD)
    let σc := p5.1
    let costsAddr := p1.2
    let finAddr := p3.2
    let pmAddr := p4.2
    let cmAddr := p5.2
    if costsD.lcoh ≠ financesD.lcoh then
      (σc, .error .lcohMismatch)
    else
      match costsD.feedstocks with
      | .obj _ => (σc, .error .typeError)
      | .raw feedstocks =>
        match ironWinCapacityValidate capacityD.hydrogen_amount_kgpy
            capacityD.desired_iron_win_mtpy with
        | .error e => (σc, .error e)
        | .ok () =>
          let capacity_config : IronWinCapacityModelConfig :=
            { input_capacity_factor_estimate := capacityD.input_capacity_factor_estimate
              feedstocks := feedstocks
              hydrogen_amount_kgpy := capacityD.hydrogen_amount_kgpy
              desired_iron_win_mtpy := capacityD.desired_iron_win_mtpy
              performance_model := some pmAddr }
          match run_size_iron_win_plant_capacity locs σc capacity_config with
          | (σ1, .error e) => (σ1, .error e)
          | (σ1, .ok iron_win_capacity) =>
            let costsD1 : IronWinCostsDict := { costsD with feedstocks := .obj feedstocks }
            let σ2 := σ1.write costsAddr (.costsD costsD1)
            let iron_win_cost_config : IronWinCostModelConfig :=
              { operational_year := costsD1.operational_year
                plant_capacity_mtpy := iron_win_capacity.iron_win_plant_capacity_mtpy
                lcoh := costsD1.lcoh
                capex_misc := costsD1.capex_misc
                feedstocks := feedstocks
                o2_heat_integration := costsD1.o2_heat_integration
                cost_model := some cmAddr }
            match run_iron_win_cost_model locs σ2 iron_win_cost_config with
            | (σ3, .error e) => (σ3, .error e)
            | (σ3, .ok iron_win_costs) =>
              let financesD1 : IronWinFinancesDict :=
                { financesD with feedstocks := some (.obj feedstocks) }
              let σ4 := σ3.write finAddr (.financesD financesD1)
              let iron_win_finance_config : IronWinFinanceModelConfig :=
                { plant_life := financesD1.plant_life
                  plant_capacity_mtpy := iron_win_capacity.iron_win_plant_capacity_mtpy
                  plant_capacity_factor := capacity_config.input_capacity_factor_estimate
                  iron_win_production_mtpy :=
                    run_iron_win_model iron_win_capacity.iron_win_plant_capacity_mtpy
                      capacity_config.input_capacity_factor_estimate
                  lcoh := financesD1.lcoh
                  grid_prices := financesD1.grid_prices
                  feedstocks := feedstocks
                  costs := iron_win_costs.toIronWinCosts }
              let iron_win_finance := run_iron_win_finance_model solver iron_win_finance_config
              (σ4, .ok (iron_win_capacity, iron_win_costs, iron_win_finance))
  | _, _, _, _, _ => (σ, .error .keyError)

/-!
The iron-ore module (`iron_ore.py`): declaration-for-declaration identical to
the iron-electrowinning module up to renaming (`iron_win` → `iron_ore`), so
its embedding mirrors the one above.  Its own `Feedstocks` class (declared
field-for-field identically) and the dict shapes live in this namespace.
-/

namespace IronOre

/-- `Feedstocks` (iron_ore.py), declared identically to the class of
iron_win.py. -/
structure Feedstocks where
  natural_gas_prices : List (String × ℚ)
  excess_oxygen : ℚ := 395
  lime_unitcost : ℚ := 122.1
  carbon_unitcost : ℚ := 236.97
  electricity_cost : ℚ := 48.92
  iron_ore_pellet_unitcost : ℚ := 207.35
  oxygen_market_price : ℚ := 0.03
  raw_water_unitcost : ℚ := 0.59289
  iron_ore_consumption : ℚ := 1.62927
  raw_water_consumption : ℚ := 0.80367
  lime_consumption : ℚ := 0.01812
  carbon_consumption : ℚ := 0.0538
  hydrogen_consumption : ℚ := 0.06596
  natural_gas_consumption : ℚ := 0.71657
  electricity_consumption : ℚ := 0.5502
  slag_disposal_unitcost : ℚ := 37.63
  slag_production : ℚ := 0.17433
  maintenance_materials_unitcost : ℚ := 7.72
deriving DecidableEq

/-- The `feedstocks` entry of an iron-ore `costs` / `finances` dict (see
`GreenHeart.FeedstockEntry`). -/
inductive FeedstockEntry
  | raw (f : Feedstocks)
  | obj (f : Feedstocks)
deriving DecidableEq

/-- The `iron → costs` dict of the greenheart configuration: the keyword
arguments splatted into `IronOreCostModelConfig` by the orchestrator
(`plant_capacity_mtpy` is supplied separately from the capacity stage, and
the optional emission fields keep their class defaults). -/
structure IronOreCostsDict where
  operational_year : ℕ
  lcoh : ℚ
  capex_misc : ℚ
  o2_heat_integration : Bool
  feedstocks : FeedstockEntry
deriving DecidableEq

/-- The `iron → capacity` dict: the keyword arguments splatted into
`IronOreCapacityModelConfig` by the orchestrator. -/
structure IronOreCapacityDict where
  input_capacity_factor_estimate : ℚ
  hydrogen_amount_kgpy : Option ℚ := none
  desired_iron_ore_mtpy : Option ℚ := none
deriving DecidableEq

/-- The `iron → finances` dict: the keyword arguments splatted into
`IronOreFinanceModelConfig`, restricted to the required fields; the
orchestrator adds the `feedstocks` entry in place before splatting. -/
structure IronOreFinancesDict where
  plant_life : ℕ
  lcoh : ℚ
  grid_prices : List (String × ℚ)
  feedstocks : Option FeedstockEntry := none
deriving DecidableEq

/-- The shapes of mutable dict that occur in an iron-ore run. -/
inductive OreObj
  | costsD (d : IronOreCostsDict)
  | capacityD (d : IronOreCapacityDict)
  | financesD (d : IronOreFinancesDict)
  | modelD (d : ModelDict)
deriving DecidableEq

/-- `IronOreCapacityModelConfig` (attrs class).  `performance_model` is a
Python dict, held by reference into the store; it defaults to `None`. -/
structure IronOreCapacityModelConfig where
  input_capacity_factor_estimate : ℚ
  feedstocks : Feedstocks
  hydrogen_amount_kgpy : Option ℚ := none
  desired_iron_ore_mtpy : Option ℚ := none
  performance_model : Option ℕ := none
deriving DecidableEq

/-- `IronOreCapacityModelConfig.__attrs_post_init__`: raises when both
quantity fields are `None`, then raises when both are truthy (`if a and b:`);
otherwise the object is constructed. -/
def ironOreCapacityValidate (hydrogen_amount_kgpy desired_iron_ore_mtpy : Option ℚ) :
    Except Err Unit :=
  if hydrogen_amount_kgpy = none ∧ desired_iron_ore_mtpy = none then
    .error .requiredInput
  else if GreenHeart.truthy hydrogen_amount_kgpy ∧ GreenHeart.truthy desired_iron_ore_mtpy then
    .error .bothInputs
  else
    .ok ()

/-- `IronOreCapacityModelOutputs`. -/
structure IronOreCapacityModelOutputs where
  iron_ore_plant_capacity_mtpy : ℚ
  hydrogen_amount_kgpy : ℚ
deriving DecidableEq

/-- `run_size_iron_ore_plant_capacity`.

The placeholder branch consists of two truthiness-guarded assignment blocks
followed by an unconditional `return`; when neither block runs the output
locals are unbound (`Err.unboundLocal`), and when both run the second block
overwrites both locals.  The external branch patches blank file paths of the
`performance_model` dict in place from the registry (raising `KeyError` when
the registry lacks the model — in that case the first blank field fails before
anything was written) and then delegates to the external model, which is an
unimplemented placeholder ("MODEL NOT ACTUALLY IMPLEMENTED"), modelled as
`Err.externalModel` raised after the patching. -/
def run_size_iron_ore_plant_capacity (locs : ModelLocs)
    (σ : Store OreObj) (config : IronOreCapacityModelConfig) :
    Store OreObj × Except Err IronOreCapacityModelOutputs :=
  match config.performance_model with
  | none => (σ, .error .typeError)
  | some pmAddr =>
    match σ.mem pmAddr with
    | none => (σ, .error .keyError)
    | some (.costsD _) | some (.capacityD _) | some (.financesD _) => (σ, .error .typeError)
    | some (.modelD pm) =>
      if pm.name = "placeholder" then
        let r1 : Option IronOreCapacityModelOutputs :=
          if GreenHeart.truthy config.hydrogen_amount_kgpy then
            let h2 := config.hydrogen_amount_kgpy.getD 0
            some { iron_ore_plant_capacity_mtpy :=
                     h2 / 1000 / config.feedstocks.hydrogen_consumption
                       * config.input_capacity_factor_estimate
                   hydrogen_amount_kgpy := h2 }
          else none
        let r2 : Option IronOreCapacityModelOutputs :=
          if GreenHeart.truthy config.desired_iron_ore_mtpy then
            let d := config.desired_iron_ore_mtpy.getD 0
            some { iron_ore_plant_capacity_mtpy :=
                     d / config.input_capacity_factor_estimate
                   hydrogen_amount_kgpy :=
                     d * 1000 * config.feedstocks.hydrogen_consumption
                       / config.input_capacity_factor_estimate }
          else r1
        match r2 with
        | some out => (σ, .ok out)
        | none => (σ, .error .unboundLocal)
      else
        if pm.model_fp = "" ∨ pm.inputs_fp = "" ∨ pm.coeffs_fp = "" then
          match locs.performance pm.name with
          | none => (σ, .error .keyError)
          | some fp =>
            let pm1 : ModelDict :=
              { pm with
                model_fp := if pm.model_fp = "" then fp.model else pm.model_fp
                inputs_fp := if pm.inputs_fp = "" then fp.inputs else pm.inputs_fp
                coeffs_fp := if pm.coeffs_fp = "" then fp.coeffs else pm.coeffs_fp }
            (σ.write pmAddr (.modelD pm1), .error .externalModel)
        else
          (σ, .error .externalModel)

/-- `run_iron_ore_model`: annual production from capacity and capacity
factor. -/
def run_iron_ore_model (plant_capacity_mtpy plant_capacity_factor : ℚ) : ℚ :=
  plant_capacity_mtpy * plant_capacity_factor

/-- `IronOreCostModelConfig` (attrs class).  `cost_model` is a Python dict
held by reference into the store; it defaults to `None`. -/
structure IronOreCostModelConfig where
  operational_year : ℕ
  plant_capacity_mtpy : ℚ
  lcoh : ℚ
  capex_misc : ℚ
  feedstocks : Feedstocks
  o2_heat_integration : Bool := true
  co2_fuel_emissions : ℚ := 0.03929
  co2_carbon_emissions : ℚ := 0.17466
  surface_water_discharge : ℚ := 0.42113
  cost_model : Option ℕ := none
deriving DecidableEq

/-- `IronOreCosts`: the minimum cost fields required by
`run_iron_ore_finance_model`. -/
structure IronOreCosts where
  capex_eaf_casting : ℝ
  capex_shaft_furnace : ℝ
  capex_oxygen_supply : ℝ
  capex_h2_preheating : ℝ
  capex_cooling_tower : ℝ
  capex_piping : ℝ
  capex_elec_instr : ℝ
  capex_buildings_storage_water : ℝ
  capex_misc : ℝ
  labor_cost_annual_operation : ℝ
  labor_cost_maintenance : ℝ
  labor_cost_admin_support : ℝ
  property_tax_insurance : ℝ
  land_cost : ℝ
  installation_cost : ℝ

/-- `IronOreCostModelOutputs extends IronOreCosts`. -/
structure IronOreCostModelOutputs extends IronOreCosts where
  total_plant_cost : ℝ
  total_fixed_operating_cost : ℝ
  labor_cost_fivemonth : ℝ
  maintenance_materials_onemonth : ℝ
  non_fuel_consumables_onemonth : ℝ
  waste_disposal_onemonth : ℝ
  monthly_energy_cost : ℝ
  spare_parts_cost : ℝ
  misc_owners_costs : ℝ

/-- The placeholder-branch cost computation of `run_iron_ore_cost_model`: the body
of the `if config.cost_model['name'] == 'placeholder'` arm, as a function of
the config and the natural-gas price looked up for the operational year. -/
noncomputable def ironOrePlaceholderCosts (config : IronOreCostModelConfig)
    (natural_gas_price : ℚ) : IronOreCostModelOutputs :=
  let feedstocks := config.feedstocks
  let model_year_CEPCI : ℝ := 596.2
  let equation_year_CEPCI : ℝ := 708.8
  let plant_capacity_mtpy : ℝ := (config.plant_capacity_mtpy : ℝ)
  let capex_eaf_casting :=
    model_year_CEPCI / equation_year_CEPCI
      * 352191.5237 * plant_capacity_mtpy ^ (0.456 : ℝ)
  let capex_shaft_furnace :=
    model_year_CEPCI / equation_year_CEPCI
      * 489.68061 * plant_capacity_mtpy ^ (0.88741 : ℝ)
  let capex_oxygen_supply :=
    model_year_CEPCI / equation_year_CEPCI
      * 1715.21508 * plant_capacity_mtpy ^ (0.64574 : ℝ)
  let capex_h2_preheating :=
    if config.o2_heat_integration then
      model_year_CEPCI / equation_year_CEPCI
        * (1 - 0.4) * (45.69123 * plant_capacity_mtpy ^ (0.86564 : ℝ))
    else
      model_year_CEPCI / equation_year_CEPCI
        * 45.69123 * plant_capacity_mtpy ^ (0.86564 : ℝ)
  let capex_cooling_tower :=
    if config.o2_heat_integration then
      model_year_CEPCI / equation_year_CEPCI
        * (1 - 0.3) * (2513.08314 * plant_capacity_mtpy ^ (0.63325 : ℝ))
    else
      model_year_CEPCI / equation_year_CEPCI
        * 2513.08314 * plant_capacity_mtpy ^ (0.63325 : ℝ)
  let capex_piping :=
    model_year_CEPCI / equation_year_CEPCI
      * 11815.72718 * plant_capacity_mtpy ^ (0.59983 : ℝ)
  let capex_elec_instr :=
    model_year_CEPCI / equation_year_CEPCI
      * 7877.15146 * plant_capacity_mtpy ^ (0.59983 : ℝ)
  let capex_buildings_storage_water :=
    model_year_CEPCI / equation_year_CEPCI
      * 1097.81876 * plant_capacity_mtpy ^ (0.8 : ℝ)
  let capex_misc : ℝ := (config.capex_misc : ℝ)
  let total_plant_cost :=
    capex_eaf_casting + capex_shaft_furnace + capex_oxygen_supply
      + capex_h2_preheating + capex_cooling_tower + capex_piping
      + capex_elec_instr + capex_buildings_storage_water + capex_misc
  let labor_cost_annual_operation :=
    69375996.9 * (plant_capacity_mtpy / 365 * 1000) ^ (0.25242 : ℝ)
      / ((1162077 / 365 * 1000 : ℝ) ^ (0.25242 : ℝ))
  let labor_cost_maintenance := 0.00863 * total_plant_cost
  let labor_cost_admin_support :=
    0.25 * (labor_cost_annual_operation + labor_cost_maintenance)
  let property_tax_insurance := 0.02 * total_plant_cost
  let total_fixed_operating_cost :=
    labor_cost_annual_operation + labor_cost_maintenance
      + labor_cost_admin_support + property_tax_insurance
  let labor_cost_fivemonth :=
    5 / 12 * (labor_cost_annual_operation + labor_cost_maintenance
      + labor_cost_admin_support)
  let maintenance_materials_onemonth :=
    (feedstocks.maintenance_materials_unitcost : ℝ) * plant_capacity_mtpy / 12
  let non_fuel_consumables_onemonth :=
    plant_capacity_mtpy
      * ((feedstocks.raw_water_consumption : ℝ) * (feedstocks.raw_water_unitcost : ℝ)
        + (feedstocks.lime_consumption : ℝ) * (feedstocks.lime_unitcost : ℝ)
        + (feedstocks.carbon_consumption : ℝ) * (feedstocks.carbon_unitcost : ℝ)
        + (feedstocks.iron_ore_consumption : ℝ) * (feedstocks.iron_ore_pellet_unitcost : ℝ))
      / 12
  let waste_disposal_onemonth :=
    plant_capacity_mtpy * (feedstocks.slag_disposal_unitcost : ℝ)
      * (feedstocks.slag_production : ℝ) / 12
  let monthly_energy_cost :=
    plant_capacity_mtpy
      * ((feedstocks.hydrogen_consumption : ℝ) * (config.lcoh : ℝ) * 1000
        + (feedstocks.natural_gas_consumption : ℝ) * (natural_gas_price : ℝ)
        + (feedstocks.electricity_consumption : ℝ) * (feedstocks.electricity_cost : ℝ))
      / 12
  let two_percent_tpc := 0.02 * total_plant_cost
  let fuel_consumables_60day_supply_cost :=
    plant_capacity_mtpy
      * ((feedstocks.raw_water_consumption : ℝ) * (feedstocks.raw_water_unitcost : ℝ)
        + (feedstocks.lime_consumption : ℝ) * (feedstocks.lime_unitcost : ℝ)
        + (feedstocks.carbon_consumption : ℝ) * (feedstocks.carbon_unitcost : ℝ)
        + (feedstocks.iron_ore_consumption : ℝ) * (feedstocks.iron_ore_pellet_unitcost : ℝ))
      / 365 * 60
  let spare_parts_cost := 0.005 * total_plant_cost
  let land_cost := 0.775 * plant_capacity_mtpy
  let misc_owners_costs := 0.15 * total_plant_cost
  let installation_cost :=
    labor_cost_fivemonth + two_percent_tpc
      + fuel_consumables_60day_supply_cost + spare_parts_cost + misc_owners_costs
  { capex_eaf_casting := capex_eaf_casting
    capex_shaft_furnace := capex_shaft_furnace
    capex_oxygen_supply := capex_oxygen_supply
    capex_h2_preheating := capex_h2_preheating
    capex_cooling_tower := capex_cooling_tower
    capex_piping := capex_piping
    capex_elec_instr := capex_elec_instr
    capex_buildings_storage_water := capex_buildings_storage_water
    capex_misc := capex_misc
    total_plant_cost := total_plant_cost
    labor_cost_annual_operation := labor_cost_annual_operation
    labor_cost_maintenance := labor_cost_maintenance
    labor_cost_admin_support := labor_cost_admin_support
    property_tax_insurance := property_tax_insurance
    total_fixed_operating_cost := total_fixed_operating_cost
    labor_cost_fivemonth := labor_cost_fivemonth
    maintenance_materials_onemonth := maintenance_materials_onemonth
    non_fuel_consumables_onemonth := non_fuel_consumables_onemonth
    waste_disposal_onemonth := waste_disposal_onemonth
    monthly_energy_cost := monthly_energy_cost
    spare_parts_cost := spare_parts_cost
    land_cost := land_cost
    misc_owners_costs := misc_owners_costs
    installation_cost := installation_cost }

/-- `run_iron_ore_cost_model`, placeholder branch: power-law capital line
items indexed by the CEPCI ratio, fixed operating costs, and owner's
(installation) costs, exactly as in the source.  The `natural_gas_prices`
year lookup raises `KeyError` when the operational year is missing.  The
non-placeholder branch patches blank file paths of the `cost_model` dict in
place from the registry and delegates to the external model (an unimplemented
placeholder, modelled as `Err.externalModel`). -/
noncomputable def run_iron_ore_cost_model (locs : ModelLocs) (σ : Store OreObj)
    (config : IronOreCostModelConfig) :
    Store OreObj × Except Err IronOreCostModelOutputs :=
  match config.cost_model with
  | none => (σ, .error .typeError)
  | some cmAddr =>
    match σ.mem cmAddr with
    | none => (σ, .error .keyError)
    | some (.costsD _) | some (.capacityD _) | some (.financesD _) => (σ, .error .typeError)
    | some (.modelD cm) =>
      if cm.name = "placeholder" then
        match config.feedstocks.natural_gas_prices.lookup (toString config.operational_year) with
        | none => (σ, .error .keyError)
        | some natural_gas_price =>
          (σ, .ok (ironOrePlaceholderCosts config natural_gas_price))
      else
        if cm.model_fp = "" ∨ cm.inputs_fp = "" ∨ cm.coeffs_fp = "" then
          match locs.cost cm.name with
          | none => (σ, .error .keyError)
          | some fp =>
            let cm1 : ModelDict :=
              { cm with
                model_fp := if cm.model_fp = "" then fp.model else cm.model_fp
                inputs_fp := if cm.inputs_fp = "" then fp.inputs else cm.inputs_fp
                coeffs_fp := if cm.coeffs_fp = "" then fp.coeffs else cm.coeffs_fp }
            (σ.write cmAddr (.modelD cm1), .error .externalModel)
        else
          (σ, .error .externalModel)

/-- `IronOreFinanceModelConfig` (attrs class), restricted to the fields the
claims observe.  The source declares `costs` with the union type
`Union[IronOreCosts, IronOreCostModelOutputs]` and the finance stage only
reads the base `IronOreCosts` fields, so the field carries the minimal
contract `IronOreCosts`. -/
structure IronOreFinanceModelConfig where
  plant_life : ℕ
  plant_capacity_mtpy : ℚ
  plant_capacity_factor : ℚ
  iron_ore_production_mtpy : ℚ
  lcoh : ℚ
  grid_prices : List (String × ℚ)
  feedstocks : Feedstocks
  costs : IronOreCosts
  o2_heat_integration : Bool := true
  financial_assumptions : List (String × ℚ) := []
  install_years : ℕ := 3
  gen_inflation : ℚ := 0
  save_plots : Bool := false
  show_plots : Bool := false
  output_dir : String := "./output/"
  design_scenario_id : ℕ := 0

/-- `IronOreFinanceModelOutputs`.  Modelled from the spec: the bodies of the
solution and summary mappings and the price-breakdown table are produced
verbatim by the external ProFAST breakeven solver (out of scope, spec §6);
we record the one guaranteed piece of the contract, the breakeven price that
the solution mapping must expose under its "price" key. -/
structure IronOreFinanceModelOutputs where
  sol_price : ℚ

/-- `run_iron_ore_finance_model`.  Modelled from the spec: the body assembles
the commodity/capital/fixed-cost/feedstock/co-product inputs from its config
and delegates the breakeven solve to the external ProFAST engine (spec §4.3
treats that solve as a black box, and ProFAST is not among the sources); the
engine is abstracted as the explicit `solver` argument.  Its optional
plot-writing side effects are peripheral I/O outside the numerical contract
and are not modelled. -/
def run_iron_ore_finance_model
    (solver : IronOreFinanceModelConfig → IronOreFinanceModelOutputs)
    (config : IronOreFinanceModelConfig) : IronOreFinanceModelOutputs :=
  solver config

/-- `run_iron_ore_full_model`: deep-copies `greenheart_config['iron']`
(modelled as allocation of fresh store cells for the five nested dicts),
checks the cost-stage LCOH against the finance-stage LCOH, then sequences the
capacity, cost, and finance stages, patching the copied dicts exactly where
the source mutates them (`iron_ore_costs["feedstocks"] = feedstocks`,
`iron_ore_finance["feedstocks"] = feedstocks`, and the path patching done
inside the capacity/cost stages on the copied `performance_model` /
`cost_model` dicts). -/
noncomputable def run_iron_ore_full_model (locs : ModelLocs)
    (solver : IronOreFinanceModelConfig → IronOreFinanceModelOutputs)
    (σ : Store OreObj) (greenheart_config : GreenheartConfig) :
    Store OreObj ×
      Except Err
        (IronOreCapacityModelOutputs × IronOreCostModelOutputs × IronOreFinanceModelOutputs) :=
  match σ.mem greenheart_config.iron.costs, σ.mem greenheart_config.iron.capacity,
      σ.mem greenheart_config.iron.finances, σ.mem greenheart_config.iron.performance_model,
      σ.mem greenheart_config.iron.cost_model with
  | some (.costsD costsD), some (.capacityD capacityD), some (.financesD financesD),
      some (.modelD pmD), some (.modelD cmD) =>
    let p1 := σ.alloc (.costsD costsD)
    let p2 := p1.1.alloc (.capacityD capacityD)
    let p3 := p2.1.alloc (.financesD financesD)
    let p4 := p3.1.alloc (.modelD pmD)
    let p5 := p4.1.alloc (.modelD cmD)
    let σc := p5.1
    let costsAddr := p1.2
    let finAddr := p3.2
    let pmAddr := p4.2
    let cmAddr := p5.2
    if costsD.lcoh ≠ financesD.lcoh then
      (σc, .error .lcohMismatch)
    else
      match costsD.feedstocks with
      | .obj _ => (σc, .error .typeError)
      | .raw feedstocks =>
        match ironOreCapacityValidate capacityD.hydrogen_amount_kgpy
            capacityD.desired_iron_ore_mtpy with
        | .error e => (σc, .error e)
        | .ok () =>
          let capacity_config : IronOreCapacityModelConfig :=
            { input_capacity_factor_estimate := capacityD.input_capacity_factor_estimate
              feedstocks := feedstocks
              hydrogen_amount_kgpy := capacityD.hydrogen_amount_kgpy
              desired_iron_ore_mtpy := capacityD.desired_iron_ore_mtpy
              performance_model := some pmAddr }
          match run_size_iron_ore_plant_capacity locs σc capacity_config with
          | (σ1, .error e) => (σ1, .error e)
          | (σ1, .ok iron_ore_capacity) =>
            let costsD1 : IronOreCostsDict := { costsD with feedstocks := .obj feedstocks }
            let σ2 := σ1.write costsAddr (.costsD costsD1)
            let iron_ore_cost_config : IronOreCostModelConfig :=
              { operational_year := costsD1.operational_year
                plant_capacity_mtpy := iron_ore_capacity.iron_ore_plant_capacity_mtpy
                lcoh := costsD1.lcoh
                capex_misc := costsD1.capex_misc
                feedstocks := feedstocks
                o2_heat_integration := costsD1.o2_heat_integration
                cost_model := some cmAddr }
            match run_iron_ore_cost_model locs σ2 iron_ore_cost_config with
            | (σ3, .error e) => (σ3, .error e)
            | (σ3, .ok iron_ore_costs) =>
              let financesD1 : IronOreFinancesDict :=
                { financesD with feedstocks := some (.obj feedstocks) }
              let σ4 := σ3.write finAddr (.financesD financesD1)
              let iron_ore_finance_config : IronOreFinanceModelConfig :=
                { plant_life := financesD1.plant_life
                  plant_capacity_mtpy := iron_ore_capacity.iron_ore_plant_capacity_mtpy
                  plant_capacity_factor := capacity_config.input_capacity_factor_estimate
                  iron_ore_production_mtpy :=
                    run_iron_ore_model iron_ore_capacity.iron_ore_plant_capacity_mtpy
                      capacity_config.input_capacity_factor_estimate
                  lcoh := financesD1.lcoh
                  grid_prices := financesD1.grid_prices
                  feedstocks := feedstocks
                  costs := iron_ore_costs.toIronOreCosts }
              let iron_ore_finance := run_iron_ore_finance_model solver iron_ore_finance_config
              (σ4, .ok (iron_ore_capacity, iron_ore_costs, iron_ore_finance))
  | _, _, _, _, _ => (σ, .error .keyError)


end IronOre

/-!
Concrete sample data, used to instantiate the theorems below on closed
inputs.
-/

/-- A `Feedstocks` value with a round hydrogen-consumption rate and one
natural-gas price year; every other field keeps its class default. -/
def sampleFeedstocks : Feedstocks :=
  { natural_gas_prices := [("2035", 4)], hydrogen_consumption := 1 / 10 }

/-- A resolved `performance_model` / `cost_model` dict naming the built-in
placeholder branch. -/
def placeholderModelDict : ModelDict :=
  { name := "placeholder", model_fp := "", inputs_fp := "", coeffs_fp := "" }

/-- An unresolved model dict naming an external model, all paths blank. -/
def externalModelDict : ModelDict :=
  { name := "tafel", model_fp := "", inputs_fp := "", coeffs_fp := "" }

/-- An empty model registry. -/
def emptyLocs : ModelLocs := { performance := fun _ => none, cost := fun _ => none }

/-- A registry holding paths for the external model named by
`externalModelDict`. -/
def sampleLocs : ModelLocs :=
  { performance := fun n =>
      if n = "tafel" then some { model := "m.py", inputs := "i.yaml", coeffs := "c.csv" }
      else none
    cost := fun _ => none }

/-- A one-cell store holding the placeholder model dict at address `0`. -/
def sampleStoreWin : Store WinObj :=
  { next := 1, mem := fun a => if a = 0 then some (.modelD placeholderModelDict) else none }

/-- A one-cell store holding the unresolved external model dict at
address `0`. -/
def externalStoreWin : Store WinObj :=
  { next := 1, mem := fun a => if a = 0 then some (.modelD externalModelDict) else none }

/-- A supply-mode capacity config: 1000 kg of hydrogen per year, capacity
factor one half, placeholder performance model at address `0`. -/
def sampleSupplyConfig : IronWinCapacityModelConfig :=
  { input_capacity_factor_estimate := 1 / 2
    feedstocks := sampleFeedstocks
    hydrogen_amount_kgpy := some 1000
    performance_model := some 0 }

/-- A demand-mode capacity config asking for the product quantity
`capacity × capacity_factor` obtained from `sampleSupplyConfig` (the supply
run yields capacity `5`, so the product quantity is `5 × 1/2`). -/
def sampleDemandConfig : IronWinCapacityModelConfig :=
  { input_capacity_factor_estimate := 1 / 2
    feedstocks := sampleFeedstocks
    desired_iron_win_mtpy := some (5 * (1 / 2))
    performance_model := some 0 }

/-- A cost-model config at unit capacity with the placeholder cost model at
address `0`. -/
def sampleCostConfig : IronWinCostModelConfig :=
  { operational_year := 2035
    plant_capacity_mtpy := 1
    lcoh := 5
    capex_misc := 7
    feedstocks := sampleFeedstocks
    cost_model := some 0 }

/-- The `iron → costs` dict of the sample greenheart configuration. -/
def sampleCostsDict : IronWinCostsDict :=
  { operational_year := 2035, lcoh := 5, capex_misc := 7, o2_heat_integration := true
    feedstocks := .raw sampleFeedstocks }

/-- The `iron → capacity` dict of the sample greenheart configuration. -/
def sampleCapacityDict : IronWinCapacityDict :=
  { input_capacity_factor_estimate := 1 / 2, hydrogen_amount_kgpy := some 1000 }

/-- The `iron → finances` dict of the sample greenheart configuration,
with a finance-stage LCOH differing from the cost-stage one. -/
def mismatchFinancesDict : IronWinFinancesDict :=
  { plant_life := 25, lcoh := 6, grid_prices := [("2035", 70)] }

/-- A five-cell store holding a full iron-electrowinning greenheart
configuration whose cost LCOH (5) differs from its finance LCOH (6). -/
def mismatchStoreWin : Store WinObj :=
  { next := 5
    mem := fun a =>
      if a = 0 then some (.costsD sampleCostsDict)
      else if a = 1 then some (.capacityD sampleCapacityDict)
      else if a = 2 then some (.financesD mismatchFinancesDict)
      else if a = 3 then some (.modelD placeholderModelDict)
      else if a = 4 then some (.modelD placeholderModelDict)
      else none }

/-- The greenheart configuration pointing at the five cells of
`mismatchStoreWin`. -/
def sampleGreenheartConfig : GreenheartConfig :=
  { iron :=
      { costs := 0, capacity := 1, finances := 2, performance_model := 3, cost_model := 4 } }

/-- A trivial stand-in for the external breakeven solver. -/
def sampleSolver : IronWinFinanceModelConfig → IronWinFinanceModelOutputs :=
  fun _ => { sol_price := 1000 }

/-- Iron-ore sample feedstocks, as `sampleFeedstocks`. -/
def sampleFeedstocksOre : IronOre.Feedstocks :=
  { natural_gas_prices := [("2035", 4)], hydrogen_consumption := 1 / 10 }

/-- The `iron → costs` dict of the sample iron-ore configuration. -/
def sampleCostsDictOre : IronOre.IronOreCostsDict :=
  { operational_year := 2035, lcoh := 5, capex_misc := 7, o2_heat_integration := true
    feedstocks := .raw sampleFeedstocksOre }

/-- The `iron → capacity` dict of the sample iron-ore configuration. -/
def sampleCapacityDictOre : IronOre.IronOreCapacityDict :=
  { input_capacity_factor_estimate := 1 / 2, hydrogen_amount_kgpy := some 1000 }

/-- The `iron → finances` dict of the sample iron-ore configuration, with a
finance-stage LCOH differing from the cost-stage one. -/
def mismatchFinancesDictOre : IronOre.IronOreFinancesDict :=
  { plant_life := 25, lcoh := 6, grid_prices := [("2035", 70)] }

/-- A five-cell store holding a full iron-ore greenheart configuration whose
cost LCOH (5) differs from its finance LCOH (6). -/
def mismatchStoreOre : Store IronOre.OreObj :=
  { next := 5
    mem := fun a =>
      if a = 0 then some (.costsD sampleCostsDictOre)
      else if a = 1 then some (.capacityD sampleCapacityDictOre)
      else if a = 2 then some (.financesD mismatchFinancesDictOre)
      else if a = 3 then some (.modelD placeholderModelDict)
      else if a = 4 then some (.modelD placeholderModelDict)
      else none }

/-- A trivial stand-in for the external breakeven solver (iron ore). -/
def sampleSolverOre : IronOre.IronOreFinanceModelConfig → IronOre.IronOreFinanceModelOutputs :=
  fun _ => { sol_price := 1000 }

/-- A one-cell iron-ore store holding the placeholder model dict at
address `0`. -/
def sampleStoreOre : Store IronOre.OreObj :=
  { next := 1, mem := fun a => if a = 0 then some (.modelD placeholderModelDict) else none }

/-- An iron-ore cost-model config at unit capacity with the placeholder cost
model at address `0`. -/
def sampleCostConfigOre : IronOre.IronOreCostModelConfig :=
  { operational_year := 2035
    plant_capacity_mtpy := 1
    lcoh := 5
    capex_misc := 7
    feedstocks := sampleFeedstocksOre
    cost_model := some 0 }

/-!
Theorems.  Each claim of the specification review is settled by exactly one
theorem below (with a witness instance where the theorem carries
hypotheses).
-/

/-- Truthiness of `None`. -/
theorem truthy_none : truthy none = false := rfl

/-- Truthiness of a present float. -/
theorem truthy_some (x : ℚ) : truthy (some x) = (x != 0) := rfl

/-- Writing one cell leaves every other cell unchanged. -/
theorem Store.write_mem_ne {α : Type} (σ : Store α) (c : ℕ) (x : α) (b : ℕ)
    (h : b ≠ c) : (σ.write c x).mem b = σ.mem b := by simp [Store.write, h]

/-- Writing never changes the allocation frontier. -/
theorem Store.write_next {α : Type} (σ : Store α) (c : ℕ) (x : α) :
    (σ.write c x).next = σ.next := rfl

/-- Frame property of the capacity stage: it writes at most the
`performance_model` cell of its config. -/
theorem run_size_win_frame (locs : ModelLocs) (σ : Store WinObj)
    (cfg : IronWinCapacityModelConfig) (b : ℕ)
    (hb : ∀ p, cfg.performance_model = some p → b ≠ p) :
    ((run_size_iron_win_plant_capacity locs σ cfg).1).mem b = σ.mem b := by
  cases hpm : cfg.performance_model with
  | none => simp [run_size_iron_win_plant_capacity, hpm]
  | some p =>
    simp only [run_size_iron_win_plant_capacity, hpm]
    repeat' split
    all_goals simp [Store.write, hb p hpm]

/-- The capacity stage allocates nothing. -/
theorem run_size_win_next (locs : ModelLocs) (σ : Store WinObj)
    (cfg : IronWinCapacityModelConfig) :
    ((run_size_iron_win_plant_capacity locs σ cfg).1).next = σ.next := by
  unfold run_size_iron_win_plant_capacity
  repeat' split
  all_goals rfl

/-- Frame property of the cost stage: it writes at most the `cost_model`
cell of its config. -/
theorem run_cost_win_frame (locs : ModelLocs) (σ : Store WinObj)
    (cfg : IronWinCostModelConfig) (b : ℕ)
    (hb : ∀ p, cfg.cost_model = some p → b ≠ p) :
    ((run_iron_win_cost_model locs σ cfg).1).mem b = σ.mem b := by
  cases hcm : cfg.cost_model with
  | none => simp [run_iron_win_cost_model, hcm]
  | some p =>
    simp only [run_iron_win_cost_model, hcm]
    repeat' split
    all_goals simp [Store.write, hb p hcm]

/-- The cost stage allocates nothing. -/
theorem run_cost_win_next (locs : ModelLocs) (σ : Store WinObj)
    (cfg : IronWinCostModelConfig) :
    ((run_iron_win_cost_model locs σ cfg).1).next = σ.next := by
  unfold run_iron_win_cost_model
  repeat' split
  all_goals rfl

/-- C6: in the placeholder branch, a truthy supply quantity `S` (with the
demand quantity not truthy) yields capacity
`S / 1000 / hydrogen_consumption × capacity_factor_estimate` and echoes `S`;
a truthy demand quantity `D` yields hydrogen
`D × 1000 × hydrogen_consumption / capacity_factor_estimate` and capacity
`D / capacity_factor_estimate` (the factor 1000 converts kilograms of
hydrogen to metric tonnes). -/
theorem placeholder_sizing_formulas (locs : ModelLocs) (σ : Store WinObj)
    (cfg : IronWinCapacityModelConfig) (pmAddr : ℕ) (pm : ModelDict)
    (hpm : cfg.performance_model = some pmAddr)
    (hmem : σ.mem pmAddr = some (.modelD pm))
    (hname : pm.name = "placeholder") :
    (∀ S : ℚ, cfg.hydrogen_amount_kgpy = some S → S ≠ 0 →
      truthy cfg.desired_iron_win_mtpy = false →
      run_size_iron_win_plant_capacity locs σ cfg =
        (σ, .ok { iron_win_plant_capacity_mtpy :=
                    S / 1000 / cfg.feedstocks.hydrogen_consumption
                      * cfg.input_capacity_factor_estimate
                  hydrogen_amount_kgpy := S })) ∧
    (∀ D : ℚ, cfg.desired_iron_win_mtpy = some D → D ≠ 0 →
      run_size_iron_win_plant_capacity locs σ cfg =
        (σ, .ok { iron_win_plant_capacity_mtpy := D / cfg.input_capacity_factor_estimate
                  hydrogen_amount_kgpy :=
                    D * 1000 * cfg.feedstocks.hydrogen_consumption
                      / cfg.input_capacity_factor_estimate })) := by
  constructor
  · intro S hS hSne hd
    simp [run_size_iron_win_plant_capacity, hpm, hmem, hname, hS, hd, truthy_some, hSne]
  · intro D hD hDne
    simp [run_size_iron_win_plant_capacity, hpm, hmem, hname, hD, truthy_some, hDne]

/-- C6 witness: the supply direction at 1000 kg/yr of hydrogen, consumption
rate 1/10, capacity factor 1/2 yields capacity 5; the demand direction at
5/2 t/yr yields capacity 5 and hydrogen 500 kg/yr. -/
theorem placeholder_sizing_formulas_witness :
    run_size_iron_win_plant_capacity emptyLocs sampleStoreWin sampleSupplyConfig =
      (sampleStoreWin,
        .ok { iron_win_plant_capacity_mtpy :=
                1000 / 1000 / sampleSupplyConfig.feedstocks.hydrogen_consumption * (1 / 2)
              hydrogen_amount_kgpy := 1000 }) :=
  (placeholder_sizing_formulas emptyLocs sampleStoreWin sampleSupplyConfig 0
      placeholderModelDict rfl rfl rfl).1 1000 rfl (by norm_num) rfl

/-- Helper: the supply direction of the placeholder sizing branch. -/
theorem run_size_win_supply (locs : ModelLocs) (σ : Store WinObj)
    (cfg : IronWinCapacityModelConfig) (pmAddr : ℕ) (pm : ModelDict)
    (hpm : cfg.performance_model = some pmAddr)
    (hmem : σ.mem pmAddr = some (.modelD pm))
    (hname : pm.name = "placeholder") (S : ℚ)
    (hS : cfg.hydrogen_amount_kgpy = some S) (hSne : S ≠ 0)
    (hd : truthy cfg.desired_iron_win_mtpy = false) :
    run_size_iron_win_plant_capacity locs σ cfg =
      (σ, .ok { iron_win_plant_capacity_mtpy :=
                  S / 1000 / cfg.feedstocks.hydrogen_consumption
                    * cfg.input_capacity_factor_estimate
                hydrogen_amount_kgpy := S }) := by
  simp [run_size_iron_win_plant_capacity, hpm, hmem, hname, hS, hd, truthy_some, hSne]

/-- Helper: the demand direction of the placeholder sizing branch. -/
theorem run_size_win_demand (locs : ModelLocs) (σ : Store WinObj)
    (cfg : IronWinCapacityModelConfig) (pmAddr : ℕ) (pm : ModelDict)
    (hpm : cfg.performance_model = some pmAddr)
    (hmem : σ.mem pmAddr = some (.modelD pm))
    (hname : pm.name = "placeholder") (D : ℚ)
    (hD : cfg.desired_iron_win_mtpy = some D) (hDne : D ≠ 0) :
    run_size_iron_win_plant_capacity locs σ cfg =
      (σ, .ok { iron_win_plant_capacity_mtpy := D / cfg.input_capacity_factor_estimate
                hydrogen_amount_kgpy :=
                  D * 1000 * cfg.feedstocks.hydrogen_consumption
                    / cfg.input_capacity_factor_estimate }) := by
  simp [run_size_iron_win_plant_capacity, hpm, hmem, hname, hD, truthy_some, hDne]

/-- C2 counterexample: with capacity factor 1/2 and consumption rate 1/10,
sizing in supply mode from `S = 1000` yields capacity `C = 5`; sizing in
demand mode from the product quantity `C × capacity_factor = 5/2` returns a
hydrogen amount of `500`, not `S = 1000` (it is off by the factor
`capacity_factor`, far outside floating-point tolerance). -/
theorem sizing_directions_not_mutual_inverses_cex :
    (run_size_iron_win_plant_capacity emptyLocs sampleStoreWin sampleSupplyConfig).2 =
      .ok { iron_win_plant_capacity_mtpy := 5, hydrogen_amount_kgpy := 1000 } ∧
    sampleDemandConfig.desired_iron_win_mtpy =
      some (5 * sampleSupplyConfig.input_capacity_factor_estimate) ∧
    (run_size_iron_win_plant_capacity emptyLocs sampleStoreWin sampleDemandConfig).2 =
      .ok { iron_win_plant_capacity_mtpy := 5, hydrogen_amount_kgpy := 500 } ∧
    (500 : ℚ) ≠ 1000 := by
  refine ⟨?_, ?_, ?_, by norm_num⟩
  · norm_num [run_size_iron_win_plant_capacity, sampleStoreWin, sampleSupplyConfig,
      sampleFeedstocks, placeholderModelDict, truthy]
  · norm_num [sampleDemandConfig, sampleSupplyConfig]
  · norm_num [run_size_iron_win_plant_capacity, sampleStoreWin, sampleDemandConfig,
      sampleFeedstocks, placeholderModelDict, truthy]

/-- C2 (amended): the two placeholder sizing directions are mutual inverses
with respect to the plant capacity, not the product quantity: sizing in
supply mode from a hydrogen amount `S` yields capacity `C`, and sizing in
demand mode from `C` itself (rather than from `C × capacity_factor`) returns
a hydrogen amount exactly equal to `S`. -/
theorem sizing_supply_capacity_roundtrip (locs : ModelLocs) (σ : Store WinObj)
    (pmAddr : ℕ) (pm : ModelDict) (fs : Feedstocks) (f S : ℚ)
    (hmem : σ.mem pmAddr = some (.modelD pm)) (hname : pm.name = "placeholder")
    (hS : S ≠ 0) (hf : f ≠ 0) (hh : fs.hydrogen_consumption ≠ 0) :
    ∃ C : ℚ,
      run_size_iron_win_plant_capacity locs σ
        { input_capacity_factor_estimate := f, feedstocks := fs
          hydrogen_amount_kgpy := some S, performance_model := some pmAddr } =
        (σ, .ok { iron_win_plant_capacity_mtpy := C, hydrogen_amount_kgpy := S }) ∧
      run_size_iron_win_plant_capacity locs σ
        { input_capacity_factor_estimate := f, feedstocks := fs
          desired_iron_win_mtpy := some C, performance_model := some pmAddr } =
        (σ, .ok { iron_win_plant_capacity_mtpy := C / f
                  hydrogen_amount_kgpy := S }) := by
  refine ⟨S / 1000 / fs.hydrogen_consumption * f, ?_, ?_⟩
  · exact run_size_win_supply locs σ _ pmAddr pm rfl hmem hname S rfl hS rfl
  · have hC : S / 1000 / fs.hydrogen_consumption * f ≠ 0 :=
      mul_ne_zero (div_ne_zero (div_ne_zero hS (by norm_num)) hh) hf
    have h2 := run_size_win_demand locs σ
      { input_capacity_factor_estimate := f, feedstocks := fs
        desired_iron_win_mtpy := some (S / 1000 / fs.hydrogen_consumption * f)
        performance_model := some pmAddr }
      pmAddr pm rfl hmem hname _ rfl hC
    rw [h2]
    have h3 : S / 1000 / fs.hydrogen_consumption * f * 1000 * fs.hydrogen_consumption / f
        = S := by
      field_simp
      ring
    simp [h3]

/-- C2 witness: the amended roundtrip at `S = 1000`, consumption rate 1/10,
capacity factor 1/2. -/
theorem sizing_supply_capacity_roundtrip_witness :
    ∃ C : ℚ,
      run_size_iron_win_plant_capacity emptyLocs sampleStoreWin
        { input_capacity_factor_estimate := 1 / 2, feedstocks := sampleFeedstocks
          hydrogen_amount_kgpy := some 1000, performance_model := some 0 } =
        (sampleStoreWin, .ok { iron_win_plant_capacity_mtpy := C
                               hydrogen_amount_kgpy := 1000 }) ∧
      run_size_iron_win_plant_capacity emptyLocs sampleStoreWin
        { input_capacity_factor_estimate := 1 / 2, feedstocks := sampleFeedstocks
          desired_iron_win_mtpy := some C, performance_model := some 0 } =
        (sampleStoreWin, .ok { iron_win_plant_capacity_mtpy := C / (1 / 2)
                               hydrogen_amount_kgpy := 1000 }) :=
  sizing_supply_capacity_roundtrip emptyLocs sampleStoreWin 0 placeholderModelDict
    sampleFeedstocks (1 / 2) 1000 rfl rfl (by norm_num) (by norm_num)
    (by norm_num [sampleFeedstocks])

/-- C3 counterexample: both quantity fields set (neither is `None`), yet
construction succeeds in both modules, because the "both set" check tests
truthiness and `0.0` is falsy. -/
theorem capacity_config_both_set_accepted_cex :
    (some (0 : ℚ) ≠ (none : Option ℚ) ∧ some (5 : ℚ) ≠ (none : Option ℚ)) ∧
    ironWinCapacityValidate (some 0) (some 5) = .ok () ∧
    IronOre.ironOreCapacityValidate (some 0) (some 5) = .ok () :=
  ⟨⟨by decide, by decide⟩, rfl, rfl⟩

/-- C3 (amended): constructing a capacity-model config with both quantities
`None` raises, with both quantities truthy (set and nonzero) raises, and with
exactly one of the two set succeeds — the "both set" rejection tests Python
truthiness, so a pair with one field set to zero is accepted. -/
theorem capacity_config_exclusivity_truthiness :
    (∀ h d : Option ℚ,
      (h = none → d = none → ironWinCapacityValidate h d = .error .requiredInput) ∧
      (truthy h = true → truthy d = true →
        ironWinCapacityValidate h d = .error .bothInputs) ∧
      (h ≠ none → d = none → ironWinCapacityValidate h d = .ok ()) ∧
      (h = none → d ≠ none → ironWinCapacityValidate h d = .ok ())) ∧
    (∀ h d : Option ℚ,
      (h = none → d = none → IronOre.ironOreCapacityValidate h d = .error .requiredInput) ∧
      (truthy h = true → truthy d = true →
        IronOre.ironOreCapacityValidate h d = .error .bothInputs) ∧
      (h ≠ none → d = none → IronOre.ironOreCapacityValidate h d = .ok ()) ∧
      (h = none → d ≠ none → IronOre.ironOreCapacityValidate h d = .ok ())) := by
  constructor <;>
  · intro h d
    refine ⟨?_, ?_, ?_, ?_⟩
    · intro h1 h2; subst h1; subst h2; rfl
    · intro h1 h2
      cases h with
      | none => simp [truthy] at h1
      | some x =>
        cases d with
        | none => simp [truthy] at h2
        | some y =>
          simp [truthy_some] at h1 h2
          simp [ironWinCapacityValidate, IronOre.ironOreCapacityValidate,
            truthy_some, h1, h2]
    · intro h1 h2
      subst h2
      cases h with
      | none => exact absurd rfl h1
      | some x =>
        simp [ironWinCapacityValidate, IronOre.ironOreCapacityValidate, truthy_none]
    · intro h1 h2
      subst h1
      cases d with
      | none => exact absurd rfl h2
      | some y =>
        simp [ironWinCapacityValidate, IronOre.ironOreCapacityValidate, truthy_none]

/-- C3 witness: the amended exclusivity at concrete inputs — both-`None`
raises, both-truthy raises, single-set succeeds (iron electrowinning
column). -/
theorem capacity_config_exclusivity_truthiness_witness :
    ironWinCapacityValidate none none = .error .requiredInput ∧
    ironWinCapacityValidate (some 3) (some 5) = .error .bothInputs ∧
    ironWinCapacityValidate (some 3) none = .ok () ∧
    IronOre.ironOreCapacityValidate none (some 5) = .ok () :=
  ⟨(capacity_config_exclusivity_truthiness.1 none none).1 rfl rfl,
    (capacity_config_exclusivity_truthiness.1 (some 3) (some 5)).2.1 (by decide) (by decide),
    (capacity_config_exclusivity_truthiness.1 (some 3) none).2.2.1 (by decide) rfl,
    (capacity_config_exclusivity_truthiness.2 none (some 5)).2.2.2 rfl (by decide)⟩

/-- C8 counterexample: the external performance-model branch is not pure —
with a registry entry for the named model and a blank `model_fp`, running the
capacity stage patches the `performance_model` dict in place, so the nested
mapping of the config differs after the call. -/
theorem run_size_external_branch_mutates_cex :
    (run_size_iron_win_plant_capacity sampleLocs externalStoreWin sampleSupplyConfig).1.mem 0 =
      some (.modelD { name := "tafel", model_fp := "m.py", inputs_fp := "i.yaml"
                      coeffs_fp := "c.csv" }) ∧
    externalStoreWin.mem 0 = some (.modelD externalModelDict) ∧
    (run_size_iron_win_plant_capacity sampleLocs externalStoreWin sampleSupplyConfig).1.mem 0 ≠
      externalStoreWin.mem 0 := by
  refine ⟨?_, rfl, ?_⟩ <;>
    simp [run_size_iron_win_plant_capacity, sampleLocs, externalStoreWin,
      sampleSupplyConfig, externalModelDict, Store.write]

/-- C8 (amended): the placeholder branch of the capacity stage is pure — it
leaves the store (hence every dict the config references) unchanged, and the
config value itself is immutable in the embedding; only the external branch
patches blank path fields of the `performance_model` dict in place. -/
theorem run_size_placeholder_pure (locs : ModelLocs) (σ : Store WinObj)
    (cfg : IronWinCapacityModelConfig) (pmAddr : ℕ) (pm : ModelDict)
    (hpm : cfg.performance_model = some pmAddr)
    (hmem : σ.mem pmAddr = some (.modelD pm))
    (hname : pm.name = "placeholder") :
    (run_size_iron_win_plant_capacity locs σ cfg).1 = σ := by
  simp only [run_size_iron_win_plant_capacity, hpm, hmem, hname, if_pos]
  split <;> rfl

/-- C8 witness: the placeholder branch at the sample supply config leaves the
sample store untouched. -/
theorem run_size_placeholder_pure_witness :
    (run_size_iron_win_plant_capacity emptyLocs sampleStoreWin sampleSupplyConfig).1 =
      sampleStoreWin :=
  run_size_placeholder_pure emptyLocs sampleStoreWin sampleSupplyConfig 0
    placeholderModelDict rfl rfl rfl

/-- C10: the exclusivity validation tests truthiness, not presence — a config
with `hydrogen_amount_kgpy = 0.0` and `desired_iron_win_mtpy = None` is
accepted by `__attrs_post_init__`, yet the placeholder sizing branch takes
neither computation branch for it and fails with an `UnboundLocalError`
instead of returning outputs; likewise a config with one quantity zero and
the other set passes the "both set" check. -/
theorem capacity_validation_truthiness_gap :
    ironWinCapacityValidate (some 0) none = .ok () ∧
    (∀ (locs : ModelLocs) (σ : Store WinObj) (cfg : IronWinCapacityModelConfig)
        (pmAddr : ℕ) (pm : ModelDict),
      cfg.hydrogen_amount_kgpy = some 0 → cfg.desired_iron_win_mtpy = none →
      cfg.performance_model = some pmAddr → σ.mem pmAddr = some (.modelD pm) →
      pm.name = "placeholder" →
      run_size_iron_win_plant_capacity locs σ cfg = (σ, .error .unboundLocal)) ∧
    (∀ d : ℚ, ironWinCapacityValidate (some 0) (some d) = .ok ()) := by
  refine ⟨rfl, ?_, ?_⟩
  · intro locs σ cfg pmAddr pm hH hD hpm hmem hname
    simp [run_size_iron_win_plant_capacity, hpm, hmem, hname, hH, hD,
      truthy_some, truthy_none]
  · intro d
    simp [ironWinCapacityValidate, truthy_some]

/-- C10 witness: the gap at the sample supply config with its hydrogen
amount zeroed out. -/
theorem capacity_validation_truthiness_gap_witness :
    run_size_iron_win_plant_capacity emptyLocs sampleStoreWin
      { sampleSupplyConfig with hydrogen_amount_kgpy := some 0 } =
      (sampleStoreWin, .error .unboundLocal) :=
  capacity_validation_truthiness_gap.2.1 emptyLocs sampleStoreWin _ 0
    placeholderModelDict rfl rfl rfl rfl rfl

/-- Helper: the cost model dispatches a placeholder-named `cost_model` dict to
the built-in computation, leaving the store unchanged. -/
theorem run_cost_win_placeholder (locs : ModelLocs) (σ : Store WinObj)
    (cfg : IronWinCostModelConfig) (cmAddr : ℕ) (cm : ModelDict) (p : ℚ)
    (h1 : cfg.cost_model = some cmAddr) (h2 : σ.mem cmAddr = some (.modelD cm))
    (h3 : cm.name = "placeholder")
    (hp : cfg.feedstocks.natural_gas_prices.lookup (toString cfg.operational_year) = some p) :
    run_iron_win_cost_model locs σ cfg = (σ, .ok (ironWinPlaceholderCosts cfg p)) := by
  simp [run_iron_win_cost_model, h1, h2, h3, hp]

/-- Helper: iron-ore version of `run_cost_win_placeholder`. -/
theorem run_cost_ore_placeholder (locs : ModelLocs) (σ : Store IronOre.OreObj)
    (cfg : IronOre.IronOreCostModelConfig) (cmAddr : ℕ) (cm : ModelDict) (p : ℚ)
    (h1 : cfg.cost_model = some cmAddr) (h2 : σ.mem cmAddr = some (.modelD cm))
    (h3 : cm.name = "placeholder")
    (hp : cfg.feedstocks.natural_gas_prices.lookup (toString cfg.operational_year) = some p) :
    IronOre.run_iron_ore_cost_model locs σ cfg =
      (σ, .ok (IronOre.ironOrePlaceholderCosts cfg p)) := by
  simp [IronOre.run_iron_ore_cost_model, h1, h2, h3, hp]

/-- C1: in the placeholder branch of both cost models, `total_plant_cost`
equals the exact sum of the nine returned capital line items and
`total_fixed_operating_cost` equals the exact sum of the four returned
fixed-cost items. -/
theorem cost_totals_are_exact_sums :
    (∀ (locs : ModelLocs) (σ : Store WinObj) (cfg : IronWinCostModelConfig)
        (cmAddr : ℕ) (cm : ModelDict) (p : ℚ),
      cfg.cost_model = some cmAddr → σ.mem cmAddr = some (.modelD cm) →
      cm.name = "placeholder" →
      cfg.feedstocks.natural_gas_prices.lookup (toString cfg.operational_year) = some p →
      ∃ out : IronWinCostModelOutputs,
        run_iron_win_cost_model locs σ cfg = (σ, .ok out) ∧
        out.total_plant_cost =
          out.capex_eaf_casting + out.capex_shaft_furnace + out.capex_oxygen_supply
            + out.capex_h2_preheating + out.capex_cooling_tower + out.capex_piping
            + out.capex_elec_instr + out.capex_buildings_storage_water + out.capex_misc ∧
        out.total_fixed_operating_cost =
          out.labor_cost_annual_operation + out.labor_cost_maintenance
            + out.labor_cost_admin_support + out.property_tax_insurance) ∧
    (∀ (locs : ModelLocs) (σ : Store IronOre.OreObj) (cfg : IronOre.IronOreCostModelConfig)
        (cmAddr : ℕ) (cm : ModelDict) (p : ℚ),
      cfg.cost_model = some cmAddr → σ.mem cmAddr = some (.modelD cm) →
      cm.name = "placeholder" →
      cfg.feedstocks.natural_gas_prices.lookup (toString cfg.operational_year) = some p →
      ∃ out : IronOre.IronOreCostModelOutputs,
        IronOre.run_iron_ore_cost_model locs σ cfg = (σ, .ok out) ∧
        out.total_plant_cost =
          out.capex_eaf_casting + out.capex_shaft_furnace + out.capex_oxygen_supply
            + out.capex_h2_preheating + out.capex_cooling_tower + out.capex_piping
            + out.capex_elec_instr + out.capex_buildings_storage_water + out.capex_misc ∧
        out.total_fixed_operating_cost =
          out.labor_cost_annual_operation + out.labor_cost_maintenance
            + out.labor_cost_admin_support + out.property_tax_insurance) := by
  constructor
  · intro locs σ cfg cmAddr cm p h1 h2 h3 hp
    exact ⟨ironWinPlaceholderCosts cfg p,
      run_cost_win_placeholder locs σ cfg cmAddr cm p h1 h2 h3 hp, rfl, rfl⟩
  · intro locs σ cfg cmAddr cm p h1 h2 h3 hp
    exact ⟨IronOre.ironOrePlaceholderCosts cfg p,
      run_cost_ore_placeholder locs σ cfg cmAddr cm p h1 h2 h3 hp, rfl, rfl⟩

/-- C1 witness: the additivity at the sample cost configs (unit capacity,
operational year 2035, placeholder cost model). -/
theorem cost_totals_are_exact_sums_witness :
    (∃ out : IronWinCostModelOutputs,
      run_iron_win_cost_model emptyLocs sampleStoreWin sampleCostConfig =
        (sampleStoreWin, .ok out) ∧
      out.total_plant_cost =
        out.capex_eaf_casting + out.capex_shaft_furnace + out.capex_oxygen_supply
          + out.capex_h2_preheating + out.capex_cooling_tower + out.capex_piping
          + out.capex_elec_instr + out.capex_buildings_storage_water + out.capex_misc ∧
      out.total_fixed_operating_cost =
        out.labor_cost_annual_operation + out.labor_cost_maintenance
          + out.labor_cost_admin_support + out.property_tax_insurance) ∧
    (∃ out : IronOre.IronOreCostModelOutputs,
      IronOre.run_iron_ore_cost_model emptyLocs sampleStoreOre sampleCostConfigOre =
        (sampleStoreOre, .ok out) ∧
      out.total_plant_cost =
        out.capex_eaf_casting + out.capex_shaft_furnace + out.capex_oxygen_supply
          + out.capex_h2_preheating + out.capex_cooling_tower + out.capex_piping
          + out.capex_elec_instr + out.capex_buildings_storage_water + out.capex_misc ∧
      out.total_fixed_operating_cost =
        out.labor_cost_annual_operation + out.labor_cost_maintenance
          + out.labor_cost_admin_support + out.property_tax_insurance) :=
  ⟨cost_totals_are_exact_sums.1 emptyLocs sampleStoreWin sampleCostConfig 0
      placeholderModelDict 4 rfl rfl rfl rfl,
    cost_totals_are_exact_sums.2 emptyLocs sampleStoreOre sampleCostConfigOre 0
      placeholderModelDict 4 rfl rfl rfl rfl⟩

set_option maxHeartbeats 1600000 in
/-- C4: with the o2/heat-integration flag enabled, the placeholder cost model
returns `capex_h2_preheating` at 0.6× and `capex_cooling_tower` at 0.7× their
flag-disabled values (strictly smaller for positive capacity), and every
other capital line item is unchanged between the two runs. -/
theorem o2_heat_integration_discounts (locs : ModelLocs) (σ : Store WinObj)
    (cfg : IronWinCostModelConfig) (cmAddr : ℕ) (cm : ModelDict) (p : ℚ)
    (h1 : cfg.cost_model = some cmAddr) (h2 : σ.mem cmAddr = some (.modelD cm))
    (h3 : cm.name = "placeholder")
    (hp : cfg.feedstocks.natural_gas_prices.lookup (toString cfg.operational_year) = some p)
    (hcap : 0 < cfg.plant_capacity_mtpy) :
    ∃ o1 o2 : IronWinCostModelOutputs,
      run_iron_win_cost_model locs σ { cfg with o2_heat_integration := true } =
        (σ, .ok o1) ∧
      run_iron_win_cost_model locs σ { cfg with o2_heat_integration := false } =
        (σ, .ok o2) ∧
      o1.capex_h2_preheating = 0.6 * o2.capex_h2_preheating ∧
      o1.capex_cooling_tower = 0.7 * o2.capex_cooling_tower ∧
      o1.capex_h2_preheating < o2.capex_h2_preheating ∧
      o1.capex_cooling_tower < o2.capex_cooling_tower ∧
      o1.capex_eaf_casting = o2.capex_eaf_casting ∧
      o1.capex_shaft_furnace = o2.capex_shaft_furnace ∧
      o1.capex_oxygen_supply = o2.capex_oxygen_supply ∧
      o1.capex_piping = o2.capex_piping ∧
      o1.capex_elec_instr = o2.capex_elec_instr ∧
      o1.capex_buildings_storage_water = o2.capex_buildings_storage_water ∧
      o1.capex_misc = o2.capex_misc := by
  have hcr : (0 : ℝ) < (cfg.plant_capacity_mtpy : ℝ) := by exact_mod_cast hcap
  refine ⟨ironWinPlaceholderCosts { cfg with o2_heat_integration := true } p,
    ironWinPlaceholderCosts { cfg with o2_heat_integration := false } p,
    run_cost_win_placeholder locs σ _ cmAddr cm p h1 h2 h3 hp,
    run_cost_win_placeholder locs σ _ cmAddr cm p h1 h2 h3 hp,
    ?_, ?_, ?_, ?_, rfl, rfl, rfl, rfl, rfl, rfl, rfl⟩
  · norm_num [ironWinPlaceholderCosts]
    ring_nf
  · norm_num [ironWinPlaceholderCosts]
    ring_nf
  · norm_num [ironWinPlaceholderCosts]
    have hpow : (0 : ℝ) < ((cfg.plant_capacity_mtpy : ℝ)) ^ (0.86564 : ℝ) :=
      Real.rpow_pos_of_pos hcr _
    nlinarith [hpow]
  · norm_num [ironWinPlaceholderCosts]
    have hpow : (0 : ℝ) < ((cfg.plant_capacity_mtpy : ℝ)) ^ (0.63325 : ℝ) :=
      Real.rpow_pos_of_pos hcr _
    nlinarith [hpow]

/-- C4 witness: the discounts at the sample cost config (capacity 1). -/
theorem o2_heat_integration_discounts_witness :
    ∃ o1 o2 : IronWinCostModelOutputs,
      run_iron_win_cost_model emptyLocs sampleStoreWin
          { sampleCostConfig with o2_heat_integration := true } =
        (sampleStoreWin, .ok o1) ∧
      run_iron_win_cost_model emptyLocs sampleStoreWin
          { sampleCostConfig with o2_heat_integration := false } =
        (sampleStoreWin, .ok o2) ∧
      o1.capex_h2_preheating = 0.6 * o2.capex_h2_preheating ∧
      o1.capex_cooling_tower = 0.7 * o2.capex_cooling_tower ∧
      o1.capex_h2_preheating < o2.capex_h2_preheating ∧
      o1.capex_cooling_tower < o2.capex_cooling_tower ∧
      o1.capex_eaf_casting = o2.capex_eaf_casting ∧
      o1.capex_shaft_furnace = o2.capex_shaft_furnace ∧
      o1.capex_oxygen_supply = o2.capex_oxygen_supply ∧
      o1.capex_piping = o2.capex_piping ∧
      o1.capex_elec_instr = o2.capex_elec_instr ∧
      o1.capex_buildings_storage_water = o2.capex_buildings_storage_water ∧
      o1.capex_misc = o2.capex_misc :=
  o2_heat_integration_discounts emptyLocs sampleStoreWin sampleCostConfig 0
    placeholderModelDict 4 rfl rfl rfl rfl (by norm_num [sampleCostConfig])

/-- C7: the placeholder branch returns `installation_cost` equal to exactly
the sum of the five-month labor cost (5/12 of operating + maintenance +
admin labor), 2% of `total_plant_cost`, the 60-day non-fuel consumables
supply cost, `spare_parts_cost` (itself 0.5% of `total_plant_cost`), and
`misc_owners_costs` (15% of `total_plant_cost`); the one-month
maintenance-materials, consumables, waste-disposal, and energy costs are not
among the summands. -/
theorem installation_cost_composition (locs : ModelLocs) (σ : Store WinObj)
    (cfg : IronWinCostModelConfig) (cmAddr : ℕ) (cm : ModelDict) (p : ℚ)
    (h1 : cfg.cost_model = some cmAddr) (h2 : σ.mem cmAddr = some (.modelD cm))
    (h3 : cm.name = "placeholder")
    (hp : cfg.feedstocks.natural_gas_prices.lookup (toString cfg.operational_year) = some p) :
    ∃ out : IronWinCostModelOutputs,
      run_iron_win_cost_model locs σ cfg = (σ, .ok out) ∧
      out.installation_cost =
        out.labor_cost_fivemonth
          + 0.02 * out.total_plant_cost
          + (cfg.plant_capacity_mtpy : ℝ)
              * ((cfg.feedstocks.raw_water_consumption : ℝ)
                    * (cfg.feedstocks.raw_water_unitcost : ℝ)
                  + (cfg.feedstocks.lime_consumption : ℝ)
                    * (cfg.feedstocks.lime_unitcost : ℝ)
                  + (cfg.feedstocks.carbon_consumption : ℝ)
                    * (cfg.feedstocks.carbon_unitcost : ℝ)
                  + (cfg.feedstocks.iron_ore_consumption : ℝ)
                    * (cfg.feedstocks.iron_ore_pellet_unitcost : ℝ))
              / 365 * 60
          + out.spare_parts_cost
          + out.misc_owners_costs ∧
      out.spare_parts_cost = 0.005 * out.total_plant_cost ∧
      out.misc_owners_costs = 0.15 * out.total_plant_cost ∧
      out.labor_cost_fivemonth =
        5 / 12 * (out.labor_cost_annual_operation + out.labor_cost_maintenance
          + out.labor_cost_admin_support) :=
  ⟨ironWinPlaceholderCosts cfg p,
    run_cost_win_placeholder locs σ cfg cmAddr cm p h1 h2 h3 hp, rfl, rfl, rfl, rfl⟩

/-- C7 witness: the installation-cost composition at the sample cost
config. -/
theorem installation_cost_composition_witness :
    ∃ out : IronWinCostModelOutputs,
      run_iron_win_cost_model emptyLocs sampleStoreWin sampleCostConfig =
        (sampleStoreWin, .ok out) ∧
      out.installation_cost =
        out.labor_cost_fivemonth
          + 0.02 * out.total_plant_cost
          + (sampleCostConfig.plant_capacity_mtpy : ℝ)
              * ((sampleCostConfig.feedstocks.raw_water_consumption : ℝ)
                    * (sampleCostConfig.feedstocks.raw_water_unitcost : ℝ)
                  + (sampleCostConfig.feedstocks.lime_consumption : ℝ)
                    * (sampleCostConfig.feedstocks.lime_unitcost : ℝ)
                  + (sampleCostConfig.feedstocks.carbon_consumption : ℝ)
                    * (sampleCostConfig.feedstocks.carbon_unitcost : ℝ)
                  + (sampleCostConfig.feedstocks.iron_ore_consumption : ℝ)
                    * (sampleCostConfig.feedstocks.iron_ore_pellet_unitcost : ℝ))
              / 365 * 60
          + out.spare_parts_cost
          + out.misc_owners_costs ∧
      out.spare_parts_cost = 0.005 * out.total_plant_cost ∧
      out.misc_owners_costs = 0.15 * out.total_plant_cost ∧
      out.labor_cost_fivemonth =
        5 / 12 * (out.labor_cost_annual_operation + out.labor_cost_maintenance
          + out.labor_cost_admin_support) :=
  installation_cost_composition emptyLocs sampleStoreWin sampleCostConfig 0
    placeholderModelDict 4 rfl rfl rfl rfl

set_option maxHeartbeats 1000000 in
/-- Helper: the full iron-electrowinning model only ever writes at addresses
allocated by its own deep copy, so every cell of the caller is preserved. -/
theorem run_full_win_mem (locs : ModelLocs)
    (solver : IronWinFinanceModelConfig → IronWinFinanceModelOutputs)
    (σ : Store WinObj) (gh : GreenheartConfig) (a : ℕ) (ha : a < σ.next) :
    ((run_iron_win_full_model locs solver σ gh).1).mem a = σ.mem a := by
  simp only [run_iron_win_full_model]
  repeat' split
  all_goals try rfl
  · simp only [Store.alloc]
    split_ifs <;> first | rfl | omega
  · simp only [Store.alloc]
    split_ifs <;> first | rfl | omega
  · simp only [Store.alloc]
    split_ifs <;> first | rfl | omega
  · rename_i σ1 e heq
    have h1 : _ = σ1 := congrArg Prod.fst heq
    change σ1.mem a = σ.mem a
    rw [← h1, run_size_win_frame]
    · simp only [Store.alloc]
      split_ifs <;> first | rfl | omega
    · intro p hp
      simp only [Store.alloc, Option.some.injEq] at hp
      omega
  · rename_i σ1 out heqS xc σ3 e heqC
    have h1 : _ = σ1 := congrArg Prod.fst heqS
    have h3 : _ = σ3 := congrArg Prod.fst heqC
    change σ3.mem a = σ.mem a
    rw [← h3, run_cost_win_frame]
    · rw [Store.write_mem_ne]
      · rw [← h1, run_size_win_frame]
        · simp only [Store.alloc]
          split_ifs <;> first | rfl | omega
        · intro p hp
          simp only [Store.alloc, Option.some.injEq] at hp
          omega
      · simp only [Store.alloc]
        omega
    · intro p hp
      simp only [Store.alloc, Option.some.injEq] at hp
      omega
  · rename_i σ1 out heqS xc σ3 costs heqC
    have h1 : _ = σ1 := congrArg Prod.fst heqS
    have h3 : _ = σ3 := congrArg Prod.fst heqC
    rw [Store.write_mem_ne]
    · rw [← h3, run_cost_win_frame]
      · rw [Store.write_mem_ne]
        · rw [← h1, run_size_win_frame]
          · simp only [Store.alloc]
            split_ifs <;> first | rfl | omega
          · intro p hp
            simp only [Store.alloc, Option.some.injEq] at hp
            omega
        · simp only [Store.alloc]
          omega
      · intro p hp
        simp only [Store.alloc, Option.some.injEq] at hp
        omega
    · simp only [Store.alloc]
      omega

set_option maxHeartbeats 1000000 in
/-- Helper: the full iron-electrowinning model never lowers the allocation
frontier, so runs compose. -/
theorem run_full_win_next (locs : ModelLocs)
    (solver : IronWinFinanceModelConfig → IronWinFinanceModelOutputs)
    (σ : Store WinObj) (gh : GreenheartConfig) :
    σ.next ≤ ((run_iron_win_full_model locs solver σ gh).1).next := by
  simp only [run_iron_win_full_model]
  repeat' split
  all_goals try exact Nat.le_refl _
  · simp only [Store.alloc]
    omega
  · simp only [Store.alloc]
    omega
  · simp only [Store.alloc]
    omega
  · rename_i σ1 e heq
    have h1 : _ = σ1 := congrArg Prod.fst heq
    change σ.next ≤ σ1.next
    rw [← h1, run_size_win_next]
    simp only [Store.alloc]
    omega
  · rename_i σ1 out heqS xc σ3 e heqC
    have h1 : _ = σ1 := congrArg Prod.fst heqS
    have h3 : _ = σ3 := congrArg Prod.fst heqC
    change σ.next ≤ σ3.next
    rw [← h3, run_cost_win_next, Store.write_next, ← h1, run_size_win_next]
    simp only [Store.alloc]
    omega
  · rename_i σ1 out heqS xc σ3 costs heqC
    have h1 : _ = σ1 := congrArg Prod.fst heqS
    have h3 : _ = σ3 := congrArg Prod.fst heqC
    rw [Store.write_next, ← h3, run_cost_win_next, Store.write_next, ← h1,
      run_size_win_next]
    simp only [Store.alloc]
    omega

/-- Helper: capacity-config validation never raises the LCOH-mismatch
error. -/
theorem validate_win_ne_lcohMismatch (h d : Option ℚ) :
    ironWinCapacityValidate h d ≠ .error .lcohMismatch := by
  unfold ironWinCapacityValidate
  repeat' split
  all_goals simp

/-- Helper: the capacity stage never raises the LCOH-mismatch error. -/
theorem run_size_win_ne_lcohMismatch (locs : ModelLocs) (σ : Store WinObj)
    (cfg : IronWinCapacityModelConfig) :
    (run_size_iron_win_plant_capacity locs σ cfg).2 ≠ .error .lcohMismatch := by
  unfold run_size_iron_win_plant_capacity
  repeat' split
  all_goals simp

/-- Helper: the cost stage never raises the LCOH-mismatch error. -/
theorem run_cost_win_ne_lcohMismatch (locs : ModelLocs) (σ : Store WinObj)
    (cfg : IronWinCostModelConfig) :
    (run_iron_win_cost_model locs σ cfg).2 ≠ .error .lcohMismatch := by
  unfold run_iron_win_cost_model
  repeat' split
  all_goals simp

/-- Helper (iron ore): capacity-config validation never raises the
LCOH-mismatch error. -/
theorem validate_ore_ne_lcohMismatch (h d : Option ℚ) :
    IronOre.ironOreCapacityValidate h d ≠ .error .lcohMismatch := by
  unfold IronOre.ironOreCapacityValidate
  repeat' split
  all_goals simp

/-- Helper (iron ore): the capacity stage never raises the LCOH-mismatch
error. -/
theorem run_size_ore_ne_lcohMismatch (locs : ModelLocs) (σ : Store IronOre.OreObj)
    (cfg : IronOre.IronOreCapacityModelConfig) :
    (IronOre.run_size_iron_ore_plant_capacity locs σ cfg).2 ≠ .error .lcohMismatch := by
  unfold IronOre.run_size_iron_ore_plant_capacity
  repeat' split
  all_goals simp

/-- Helper (iron ore): the cost stage never raises the LCOH-mismatch
error. -/
theorem run_cost_ore_ne_lcohMismatch (locs : ModelLocs) (σ : Store IronOre.OreObj)
    (cfg : IronOre.IronOreCostModelConfig) :
    (IronOre.run_iron_ore_cost_model locs σ cfg).2 ≠ .error .lcohMismatch := by
  unfold IronOre.run_iron_ore_cost_model
  repeat' split
  all_goals simp

/-- Helper: with differing LCOH values the orchestrator stops right after its
deep copy — it returns the mismatch error and the store extended by the five
untouched copies, with every caller cell preserved. -/
theorem run_full_win_mismatch (locs : ModelLocs)
    (solver : IronWinFinanceModelConfig → IronWinFinanceModelOutputs)
    (σ : Store WinObj) (gh : GreenheartConfig) (costsD : IronWinCostsDict)
    (capD : IronWinCapacityDict) (finD : IronWinFinancesDict) (pmD cmD : ModelDict)
    (h1 : σ.mem gh.iron.costs = some (.costsD costsD))
    (h2 : σ.mem gh.iron.capacity = some (.capacityD capD))
    (h3 : σ.mem gh.iron.finances = some (.financesD finD))
    (h4 : σ.mem gh.iron.performance_model = some (.modelD pmD))
    (h5 : σ.mem gh.iron.cost_model = some (.modelD cmD))
    (hne : costsD.lcoh ≠ finD.lcoh) :
    ∃ σc, run_iron_win_full_model locs solver σ gh = (σc, .error .lcohMismatch) ∧
      σc.next = σ.next + 5 ∧
      (∀ a, a < σ.next → σc.mem a = σ.mem a) ∧
      σc.mem σ.next = some (.costsD costsD) ∧
      σc.mem (σ.next + 1) = some (.capacityD capD) ∧
      σc.mem (σ.next + 2) = some (.financesD finD) ∧
      σc.mem (σ.next + 3) = some (.modelD pmD) ∧
      σc.mem (σ.next + 4) = some (.modelD cmD) := by
  refine ⟨(((((σ.alloc (.costsD costsD)).1.alloc (.capacityD capD)).1.alloc
      (.financesD finD)).1.alloc (.modelD pmD)).1.alloc (.modelD cmD)).1,
    ?_, ?_, ?_, ?_, ?_, ?_, ?_, ?_⟩
  · simp only [run_iron_win_full_model, h1, h2, h3, h4, h5]
    rw [if_pos hne]
  · simp only [Store.alloc]
  · intro a ha
    simp only [Store.alloc]
    split_ifs <;> first | rfl | omega
  · simp only [Store.alloc]
    split_ifs <;> first | rfl | omega
  · simp only [Store.alloc]
    split_ifs <;> first | rfl | omega
  · simp only [Store.alloc]
    split_ifs <;> first | rfl | omega
  · simp only [Store.alloc]
    split_ifs <;> first | rfl | omega
  · simp only [Store.alloc]
    split_ifs <;> rfl

/-- Helper: with equal LCOH values the orchestrator never raises the
mismatch error. -/
theorem run_full_win_no_mismatch (locs : ModelLocs)
    (solver : IronWinFinanceModelConfig → IronWinFinanceModelOutputs)
    (σ : Store WinObj) (gh : GreenheartConfig) (costsD : IronWinCostsDict)
    (capD : IronWinCapacityDict) (finD : IronWinFinancesDict) (pmD cmD : ModelDict)
    (h1 : σ.mem gh.iron.costs = some (.costsD costsD))
    (h2 : σ.mem gh.iron.capacity = some (.capacityD capD))
    (h3 : σ.mem gh.iron.finances = some (.financesD finD))
    (h4 : σ.mem gh.iron.performance_model = some (.modelD pmD))
    (h5 : σ.mem gh.iron.cost_model = some (.modelD cmD))
    (he : costsD.lcoh = finD.lcoh) :
    (run_iron_win_full_model locs solver σ gh).2 ≠ .error .lcohMismatch := by
  simp only [run_iron_win_full_model, h1, h2, h3, h4, h5]
  rw [if_neg (fun hc => hc he)]
  repeat' split
  all_goals simp
  all_goals intro hcon
  all_goals subst hcon
  all_goals first
    | (rename_i heq
       exact validate_win_ne_lcohMismatch _ _ heq)
    | (rename_i heq
       exact run_size_win_ne_lcohMismatch _ _ _ (congrArg Prod.snd heq))
    | (rename_i heq
       exact run_cost_win_ne_lcohMismatch _ _ _ (congrArg Prod.snd heq))

/-- Helper (iron ore): mismatch direction of the consistency gate. -/
theorem run_full_ore_mismatch (locs : ModelLocs)
    (solver : IronOre.IronOreFinanceModelConfig → IronOre.IronOreFinanceModelOutputs)
    (σ : Store IronOre.OreObj) (gh : GreenheartConfig)
    (costsD : IronOre.IronOreCostsDict) (capD : IronOre.IronOreCapacityDict)
    (finD : IronOre.IronOreFinancesDict) (pmD cmD : ModelDict)
    (h1 : σ.mem gh.iron.costs = some (.costsD costsD))
    (h2 : σ.mem gh.iron.capacity = some (.capacityD capD))
    (h3 : σ.mem gh.iron.finances = some (.financesD finD))
    (h4 : σ.mem gh.iron.performance_model = some (.modelD pmD))
    (h5 : σ.mem gh.iron.cost_model = some (.modelD cmD))
    (hne : costsD.lcoh ≠ finD.lcoh) :
    ∃ σc, IronOre.run_iron_ore_full_model locs solver σ gh =
        (σc, .error .lcohMismatch) ∧
      σc.next = σ.next + 5 ∧
      (∀ a, a < σ.next → σc.mem a = σ.mem a) ∧
      σc.mem σ.next = some (.costsD costsD) ∧
      σc.mem (σ.next + 1) = some (.capacityD capD) ∧
      σc.mem (σ.next + 2) = some (.financesD finD) ∧
      σc.mem (σ.next + 3) = some (.modelD pmD) ∧
      σc.mem (σ.next + 4) = some (.modelD cmD) := by
  refine ⟨(((((σ.alloc (.costsD costsD)).1.alloc (.capacityD capD)).1.alloc
      (.financesD finD)).1.alloc (.modelD pmD)).1.alloc (.modelD cmD)).1,
    ?_, ?_, ?_, ?_, ?_, ?_, ?_, ?_⟩
  · simp only [IronOre.run_iron_ore_full_model, h1, h2, h3, h4, h5]
    rw [if_pos hne]
  · simp only [Store.alloc]
  · intro a ha
    simp only [Store.alloc]
    split_ifs <;> first | rfl | omega
  · simp only [Store.alloc]
    split_ifs <;> first | rfl | omega
  · simp only [Store.alloc]
    split_ifs <;> first | rfl | omega
  · simp only [Store.alloc]
    split_ifs <;> first | rfl | omega
  · simp only [Store.alloc]
    split_ifs <;> first | rfl | omega
  · simp only [Store.alloc]
    split_ifs <;> rfl

/-- Helper (iron ore): equal-LCOH direction of the consistency gate. -/
theorem run_full_ore_no_mismatch (locs : ModelLocs)
    (solver : IronOre.IronOreFinanceModelConfig → IronOre.IronOreFinanceModelOutputs)
    (σ : Store IronOre.OreObj) (gh : GreenheartConfig)
    (costsD : IronOre.IronOreCostsDict) (capD : IronOre.IronOreCapacityDict)
    (finD : IronOre.IronOreFinancesDict) (pmD cmD : ModelDict)
    (h1 : σ.mem gh.iron.costs = some (.costsD costsD))
    (h2 : σ.mem gh.iron.capacity = some (.capacityD capD))
    (h3 : σ.mem gh.iron.finances = some (.financesD finD))
    (h4 : σ.mem gh.iron.performance_model = some (.modelD pmD))
    (h5 : σ.mem gh.iron.cost_model = some (.modelD cmD))
    (he : costsD.lcoh = finD.lcoh) :
    (IronOre.run_iron_ore_full_model locs solver σ gh).2 ≠ .error .lcohMismatch := by
  simp only [IronOre.run_iron_ore_full_model, h1, h2, h3, h4, h5]
  rw [if_neg (fun hc => hc he)]
  repeat' split
  all_goals simp
  all_goals intro hcon
  all_goals subst hcon
  all_goals first
    | (rename_i heq
       exact validate_ore_ne_lcohMismatch _ _ heq)
    | (rename_i heq
       exact run_size_ore_ne_lcohMismatch _ _ _ (congrArg Prod.snd heq))
    | (rename_i heq
       exact run_cost_ore_ne_lcohMismatch _ _ _ (congrArg Prod.snd heq))

/-- C5: when the cost-stage LCOH differs from the finance-stage LCOH, the
full-model orchestrators (iron electrowinning and iron ore) raise the
consistency error right after the deep copy and before invoking the
capacity, cost, or finance stage — the final store is exactly the input
store extended by the five untouched copies (no feedstocks substitution, no
path patching, no finance mutation has happened); when the two values are
equal, the mismatch error is never raised. -/
theorem lcoh_consistency_gate :
    (∀ (locs : ModelLocs)
        (solver : IronWinFinanceModelConfig → IronWinFinanceModelOutputs)
        (σ : Store WinObj) (gh : GreenheartConfig) (costsD : IronWinCostsDict)
        (capD : IronWinCapacityDict) (finD : IronWinFinancesDict)
        (pmD cmD : ModelDict),
      σ.mem gh.iron.costs = some (.costsD costsD) →
      σ.mem gh.iron.capacity = some (.capacityD capD) →
      σ.mem gh.iron.finances = some (.financesD finD) →
      σ.mem gh.iron.performance_model = some (.modelD pmD) →
      σ.mem gh.iron.cost_model = some (.modelD cmD) →
      (costsD.lcoh ≠ finD.lcoh →
        ∃ σc, run_iron_win_full_model locs solver σ gh =
            (σc, .error .lcohMismatch) ∧
          σc.next = σ.next + 5 ∧
          (∀ a, a < σ.next → σc.mem a = σ.mem a) ∧
          σc.mem σ.next = some (.costsD costsD) ∧
          σc.mem (σ.next + 1) = some (.capacityD capD) ∧
          σc.mem (σ.next + 2) = some (.financesD finD) ∧
          σc.mem (σ.next + 3) = some (.modelD pmD) ∧
          σc.mem (σ.next + 4) = some (.modelD cmD)) ∧
      (costsD.lcoh = finD.lcoh →
        (run_iron_win_full_model locs solver σ gh).2 ≠ .error .lcohMismatch)) ∧
    (∀ (locs : ModelLocs)
        (solver : IronOre.IronOreFinanceModelConfig → IronOre.IronOreFinanceModelOutputs)
        (σ : Store IronOre.OreObj) (gh : GreenheartConfig)
        (costsD : IronOre.IronOreCostsDict) (capD : IronOre.IronOreCapacityDict)
        (finD : IronOre.IronOreFinancesDict) (pmD cmD : ModelDict),
      σ.mem gh.iron.costs = some (.costsD costsD) →
      σ.mem gh.iron.capacity = some (.capacityD capD) →
      σ.mem gh.iron.finances = some (.financesD finD) →
      σ.mem gh.iron.performance_model = some (.modelD pmD) →
      σ.mem gh.iron.cost_model = some (.modelD cmD) →
      (costsD.lcoh ≠ finD.lcoh →
        ∃ σc, IronOre.run_iron_ore_full_model locs solver σ gh =
            (σc, .error .lcohMismatch) ∧
          σc.next = σ.next + 5 ∧
          (∀ a, a < σ.next → σc.mem a = σ.mem a) ∧
          σc.mem σ.next = some (.costsD costsD) ∧
          σc.mem (σ.next + 1) = some (.capacityD capD) ∧
          σc.mem (σ.next + 2) = some (.financesD finD) ∧
          σc.mem (σ.next + 3) = some (.modelD pmD) ∧
          σc.mem (σ.next + 4) = some (.modelD cmD)) ∧
      (costsD.lcoh = finD.lcoh →
        (IronOre.run_iron_ore_full_model locs solver σ gh).2 ≠
          .error .lcohMismatch)) := by
  constructor
  · intro locs solver σ gh costsD capD finD pmD cmD h1 h2 h3 h4 h5
    exact ⟨run_full_win_mismatch locs solver σ gh costsD capD finD pmD cmD
        h1 h2 h3 h4 h5,
      run_full_win_no_mismatch locs solver σ gh costsD capD finD pmD cmD
        h1 h2 h3 h4 h5⟩
  · intro locs solver σ gh costsD capD finD pmD cmD h1 h2 h3 h4 h5
    exact ⟨run_full_ore_mismatch locs solver σ gh costsD capD finD pmD cmD
        h1 h2 h3 h4 h5,
      run_full_ore_no_mismatch locs solver σ gh costsD capD finD pmD cmD
        h1 h2 h3 h4 h5⟩

/-- C5 witness: the sample greenheart configuration with cost LCOH 5 and
finance LCOH 6 makes both orchestrators stop with the mismatch error and
leave all five copied dicts untouched. -/
theorem lcoh_consistency_gate_witness :
    (∃ σc, run_iron_win_full_model emptyLocs sampleSolver mismatchStoreWin
        sampleGreenheartConfig = (σc, .error .lcohMismatch) ∧
      σc.next = mismatchStoreWin.next + 5 ∧
      (∀ a, a < mismatchStoreWin.next → σc.mem a = mismatchStoreWin.mem a) ∧
      σc.mem mismatchStoreWin.next = some (.costsD sampleCostsDict) ∧
      σc.mem (mismatchStoreWin.next + 1) = some (.capacityD sampleCapacityDict) ∧
      σc.mem (mismatchStoreWin.next + 2) = some (.financesD mismatchFinancesDict) ∧
      σc.mem (mismatchStoreWin.next + 3) = some (.modelD placeholderModelDict) ∧
      σc.mem (mismatchStoreWin.next + 4) = some (.modelD placeholderModelDict)) ∧
    (∃ σc, IronOre.run_iron_ore_full_model emptyLocs sampleSolverOre
        mismatchStoreOre sampleGreenheartConfig = (σc, .error .lcohMismatch) ∧
      σc.next = mismatchStoreOre.next + 5 ∧
      (∀ a, a < mismatchStoreOre.next → σc.mem a = mismatchStoreOre.mem a) ∧
      σc.mem mismatchStoreOre.next = some (.costsD sampleCostsDictOre) ∧
      σc.mem (mismatchStoreOre.next + 1) = some (.capacityD sampleCapacityDictOre) ∧
      σc.mem (mismatchStoreOre.next + 2) = some (.financesD mismatchFinancesDictOre) ∧
      σc.mem (mismatchStoreOre.next + 3) = some (.modelD placeholderModelDict) ∧
      σc.mem (mismatchStoreOre.next + 4) = some (.modelD placeholderModelDict)) :=
  ⟨(lcoh_consistency_gate.1 emptyLocs sampleSolver mismatchStoreWin
      sampleGreenheartConfig sampleCostsDict sampleCapacityDict
      mismatchFinancesDict placeholderModelDict placeholderModelDict
      rfl rfl rfl rfl rfl).1
      (by norm_num [sampleCostsDict, mismatchFinancesDict]),
    (lcoh_consistency_gate.2 emptyLocs sampleSolverOre mismatchStoreOre
      sampleGreenheartConfig sampleCostsDictOre sampleCapacityDictOre
      mismatchFinancesDictOre placeholderModelDict placeholderModelDict
      rfl rfl rfl rfl rfl).1
      (by norm_num [sampleCostsDictOre, mismatchFinancesDictOre])⟩

/-- C9: running the iron-electrowinning orchestrator leaves the caller's
original configuration unchanged — every store cell allocated before the call
(in particular every dict of the caller's greenheart configuration) holds the
same value afterwards, and the allocation frontier never decreases, so the
guarantee also holds across repeated runs against the same base
configuration. -/
theorem full_model_preserves_caller_config (locs : ModelLocs)
    (solver : IronWinFinanceModelConfig → IronWinFinanceModelOutputs)
    (σ : Store WinObj) (gh : GreenheartConfig) :
    σ.next ≤ ((run_iron_win_full_model locs solver σ gh).1).next ∧
    ∀ a, a < σ.next →
      ((run_iron_win_full_model locs solver σ gh).1).mem a = σ.mem a :=
  ⟨run_full_win_next locs solver σ gh,
    fun a ha => run_full_win_mem locs solver σ gh a ha⟩

/-- C9 witness: the sample run preserves the five caller cells of the sample
greenheart configuration. -/
theorem full_model_preserves_caller_config_witness :
    ((run_iron_win_full_model emptyLocs sampleSolver mismatchStoreWin
        sampleGreenheartConfig).1).mem 0 = mismatchStoreWin.mem 0 ∧
    ((run_iron_win_full_model emptyLocs sampleSolver mismatchStoreWin
        sampleGreenheartConfig).1).mem 4 = mismatchStoreWin.mem 4 :=
  ⟨(full_model_preserves_caller_config emptyLocs sampleSolver mismatchStoreWin
      sampleGreenheartConfig).2 0 (by norm_num [mismatchStoreWin]),
    (full_model_preserves_caller_config emptyLocs sampleSolver mismatchStoreWin
      sampleGreenheartConfig).2 4 (by norm_num [mismatchStoreWin])⟩

end GreenHeart
